import Mathlib

/-!
# ENA XDP fast path (`kernel/linux/ena/ena_xdp.h`)

A shallow embedding of the inline functions and macros of `ena_xdp.h`
(the `ENA_XDP_SUPPORT` branch): the eligibility check `ena_xdp_allowed`,
the queue range test `ENA_IS_XDP_INDEX` and the verdict dispatcher
`ena_xdp_execute`.

Conventions.
* C unsigned integers are natural numbers; an arithmetic operation of
  width `w` is followed by `% 2 ^ w`.
* Pointers are natural numbers (addresses), `0` being `NULL`.
* Functions that live outside the header (the BPF program, frame
  conversion, transmit submission, redirection) are parameters, collected
  in `Collaborators`; every call the dispatcher makes is recorded in a
  trace of `Event`s.
-/

namespace EnaXdp

/-! ## Integer helpers -/

/-- Reduction of a value to the range of a C `u32`. -/
def u32 (n : Nat) : Nat := n % 2 ^ 32

/-- Unsigned subtraction `a - b` in a C type of `bits` bits. -/
def usub (bits a b : Nat) : Nat := (a % 2 ^ bits + 2 ^ bits - b % 2 ^ bits) % 2 ^ bits

/-- The kernel macro `BIT(nr)`, that is `1UL << nr`. -/
def BIT (nr : Nat) : Nat := 1 <<< nr

/-! ## Constants the header takes from elsewhere -/

/-- The compile-time environment of `ena_xdp.h`: the feature test
`XDP_HAS_FRAME_SZ` and the constants used by `ENA_XDP_MAX_MTU`, none of which
is defined in the header itself. `SKB_DATA_ALIGN_shinfo` stands for the whole
expression `SKB_DATA_ALIGN(sizeof(struct skb_shared_info))`; `BITS_PER_LONG`
is the width of `unsigned long`, the type of `ENA_PAGE_SIZE` and hence of the
whole difference. -/
structure Platform where
  XDP_HAS_FRAME_SZ : Bool
  BITS_PER_LONG : Nat
  ENA_PAGE_SIZE : Nat
  ETH_HLEN : Nat
  ETH_FCS_LEN : Nat
  VLAN_HLEN : Nat
  XDP_PACKET_HEADROOM : Nat
  SKB_DATA_ALIGN_shinfo : Nat
deriving DecidableEq, Repr

/-- The macro `ENA_XDP_MAX_MTU`, both branches of its `#ifdef XDP_HAS_FRAME_SZ`. -/
def ENA_XDP_MAX_MTU (p : Platform) : Nat :=
  let w := p.BITS_PER_LONG
  let base :=
    usub w (usub w (usub w (usub w p.ENA_PAGE_SIZE p.ETH_HLEN) p.ETH_FCS_LEN)
      p.VLAN_HLEN) p.XDP_PACKET_HEADROOM
  if p.XDP_HAS_FRAME_SZ then usub w base p.SKB_DATA_ALIGN_shinfo else base

/-! ## Data model -/

/-- The XDP slots of `struct ena_stats_rx` (a `u64` each). -/
structure ena_stats_rx where
  xdp_aborted : Nat := 0
  xdp_drop : Nat := 0
  xdp_pass : Nat := 0
  xdp_tx : Nat := 0
  xdp_invalid : Nat := 0
  xdp_redirect : Nat := 0
deriving DecidableEq, Repr

/-- The fields of `struct ena_ring` that the header reads. Pointer fields are
addresses. -/
structure ena_ring where
  rx_stats : ena_stats_rx := {}
  xdp_bpf_prog : Nat := 0
  xdp_ring : Nat := 0
  netdev : Nat := 0
  adapter : Nat := 0
  xsk_pool : Nat := 0
deriving DecidableEq, Repr

/-- The field of `struct net_device` that the header reads. -/
structure net_device where
  mtu : Nat := 0
deriving DecidableEq, Repr

/-- The fields of `struct ena_adapter` that the header reads. The integer
fields are `u32` in `ena_netdev.h`. -/
structure ena_adapter where
  netdev : net_device := {}
  num_io_queues : Nat := 0
  max_num_io_queues : Nat := 0
  xdp_first_ring : Nat := 0
  xdp_num_queues : Nat := 0
  xdp_bpf_prog : Nat := 0
  rx_ring : List ena_ring := []
deriving DecidableEq, Repr

/-- Every integer field of the adapter is in the range of its C type. -/
def ena_adapter.in_range (a : ena_adapter) : Prop :=
  a.netdev.mtu < 2 ^ 32 ∧ a.num_io_queues < 2 ^ 32 ∧ a.max_num_io_queues < 2 ^ 32 ∧
    a.xdp_first_ring < 2 ^ 32 ∧ a.xdp_num_queues < 2 ^ 32

instance (a : ena_adapter) : Decidable a.in_range := by
  unfold ena_adapter.in_range; infer_instance

/-! ## Queue range index -/

/-- The macro `ENA_IS_XDP_INDEX(adapter, index)`; the sum of the two `u32`
fields is a `u32`. -/
def ENA_IS_XDP_INDEX (adapter : ena_adapter) (index : Nat) : Bool :=
  decide (index ≥ adapter.xdp_first_ring) &&
    decide (index < u32 (adapter.xdp_first_ring + adapter.xdp_num_queues))

/-! ## Eligibility validator -/

/-- The enumeration `enum ena_xdp_errors_t`. -/
inductive ena_xdp_errors_t where
  | ENA_XDP_ALLOWED
  | ENA_XDP_CURRENT_MTU_TOO_LARGE
  | ENA_XDP_NO_ENOUGH_QUEUES
deriving DecidableEq, Repr

open ena_xdp_errors_t

/-- The function `ena_xdp_present`. -/
def ena_xdp_present (adapter : ena_adapter) : Bool :=
  adapter.xdp_bpf_prog != 0

/-- The function `ena_xdp_present_ring`. -/
def ena_xdp_present_ring (ring : ena_ring) : Bool :=
  ring.xdp_bpf_prog != 0

/-- The function `ena_xdp_legal_queue_count`; `2 * queues` is a `u32` product. -/
def ena_xdp_legal_queue_count (adapter : ena_adapter) (queues : Nat) : Bool :=
  decide (u32 (2 * queues) ≤ adapter.max_num_io_queues)

/-- The function `ena_xdp_allowed`. -/
def ena_xdp_allowed (p : Platform) (adapter : ena_adapter) : ena_xdp_errors_t :=
  if adapter.netdev.mtu > ENA_XDP_MAX_MTU p then
    ENA_XDP_CURRENT_MTU_TOO_LARGE
  else if !ena_xdp_legal_queue_count adapter adapter.num_io_queues then
    ENA_XDP_NO_ENOUGH_QUEUES
  else
    ENA_XDP_ALLOWED

/-- The function `ena_ring_xdp_drops_cnt`. -/
def ena_ring_xdp_drops_cnt (rx_ring : ena_ring) : Nat :=
  rx_ring.rx_stats.xdp_drop

/-! ## Concrete configurations used in the examples -/

/-- A 64-bit kernel with 4 KiB pages and the usual header sizes; the aligned
size of `struct skb_shared_info` is 320 bytes. -/
def linux64 : Platform :=
  { XDP_HAS_FRAME_SZ := true, BITS_PER_LONG := 64, ENA_PAGE_SIZE := 4096, ETH_HLEN := 14,
    ETH_FCS_LEN := 4, VLAN_HLEN := 4, XDP_PACKET_HEADROOM := 256,
    SKB_DATA_ALIGN_shinfo := 320 }

/-- The same kernel built without `XDP_HAS_FRAME_SZ`. -/
def linux64_old : Platform := { linux64 with XDP_HAS_FRAME_SZ := false }

/-- The same kernel with a 512-byte frame buffer, smaller than the overheads. -/
def linux64_small : Platform := { linux64 with ENA_PAGE_SIZE := 512 }

/-- A platform with a 4096-byte frame buffer and overheads that sum to 320. -/
def overhead320 : Platform := { linux64 with SKB_DATA_ALIGN_shinfo := 42 }

/-- The part of the overhead that depends on `XDP_HAS_FRAME_SZ`. -/
def shinfo_overhead (p : Platform) : Nat :=
  if p.XDP_HAS_FRAME_SZ then p.SKB_DATA_ALIGN_shinfo else 0

/-- An adapter with the given MTU, configured queue count and hardware queue
count. -/
def mk_adapter (mtu queues total : Nat) : ena_adapter :=
  { netdev := { mtu := mtu }, num_io_queues := queues, max_num_io_queues := total }

/-! ## Action dispatcher -/

/-- Verdict `XDP_ABORTED` of the kernel's `enum xdp_action`. -/
def XDP_ABORTED : Nat := 0
/-- Verdict `XDP_DROP` of the kernel's `enum xdp_action`. -/
def XDP_DROP : Nat := 1
/-- Verdict `XDP_PASS` of the kernel's `enum xdp_action`. -/
def XDP_PASS : Nat := 2
/-- Verdict `XDP_TX` of the kernel's `enum xdp_action`. -/
def XDP_TX : Nat := 3
/-- Verdict `XDP_REDIRECT` of the kernel's `enum xdp_action`. -/
def XDP_REDIRECT : Nat := 4

/-- Enumerator `ENA_XDP_PASS` of `enum ENA_XDP_ACTIONS`. -/
def ENA_XDP_PASS : Nat := 0
/-- Enumerator `ENA_XDP_TX` of `enum ENA_XDP_ACTIONS`. -/
def ENA_XDP_TX : Nat := BIT 0
/-- Enumerator `ENA_XDP_REDIRECT` of `enum ENA_XDP_ACTIONS`. -/
def ENA_XDP_REDIRECT : Nat := BIT 1
/-- Enumerator `ENA_XDP_DROP` of `enum ENA_XDP_ACTIONS`. -/
def ENA_XDP_DROP : Nat := BIT 2

/-- The macro `ENA_XDP_FORWARDED`. -/
def ENA_XDP_FORWARDED : Nat := ENA_XDP_TX ||| ENA_XDP_REDIRECT

/-- The value of the local `u64 *xdp_stat`: the address of one XDP counter of
`rx_ring->rx_stats`. -/
inductive xdp_stat_ptr where
  | xdp_aborted
  | xdp_drop
  | xdp_pass
  | xdp_tx
  | xdp_invalid
  | xdp_redirect
deriving DecidableEq, Repr

/-- Read through a counter address. -/
def xdp_stat_ptr.load (statp : xdp_stat_ptr) (s : ena_stats_rx) : Nat :=
  match statp with
  | .xdp_aborted => s.xdp_aborted
  | .xdp_drop => s.xdp_drop
  | .xdp_pass => s.xdp_pass
  | .xdp_tx => s.xdp_tx
  | .xdp_invalid => s.xdp_invalid
  | .xdp_redirect => s.xdp_redirect

/-- Write through a counter address. -/
def xdp_stat_ptr.store (statp : xdp_stat_ptr) (s : ena_stats_rx) (v : Nat) : ena_stats_rx :=
  match statp with
  | .xdp_aborted => { s with xdp_aborted := v }
  | .xdp_drop => { s with xdp_drop := v }
  | .xdp_pass => { s with xdp_pass := v }
  | .xdp_tx => { s with xdp_tx := v }
  | .xdp_invalid => { s with xdp_invalid := v }
  | .xdp_redirect => { s with xdp_redirect := v }

/-- Modelled from the spec: `ena_increase_stat(statp, cnt, syncp)` is defined in
`ena_netdev.h`, which is not among the sources. The spec calls its effect
"increment" of a "monotonically increasing" counter, so the counter addressed
by `statp` grows by `cnt` and nothing else changes; the counter is not reduced
modulo `2 ^ 64`. -/
def ena_increase_stat (s : ena_stats_rx) (statp : xdp_stat_ptr) (cnt : Nat) : ena_stats_rx :=
  statp.store s (statp.load s + cnt)

/-- The functions `ena_xdp_execute` calls that are defined outside the header,
as functions of their arguments. `bpf_prog_run_xdp prog xdp` is the `u32`
verdict; `xdp_convert_buff_to_frame xdp` is the frame pointer (`0` on failure;
`convert_to_xdp_frame` on kernels without `XDP_CONVERT_TO_FRAME_NAME_CHANGED`);
`ena_xdp_xmit_frame tx_ring adapter xdpf` and `xdp_do_redirect netdev xdp prog`
are `int` results, `0` on success. -/
structure Collaborators where
  bpf_prog_run_xdp : Nat → Nat → Nat
  xdp_convert_buff_to_frame : Nat → Nat
  ena_xdp_xmit_frame : Nat → Nat → Nat → Int
  xdp_do_redirect : Nat → Nat → Nat → Int

/-- One call made by `ena_xdp_execute`, with its arguments. -/
inductive Event where
  | bpf_prog_run_xdp (prog xdp : Nat)
  | xdp_convert_buff_to_frame (xdp : Nat)
  | trace_xdp_exception (netdev prog act : Nat)
  | spin_lock (ring : Nat)
  | ena_xdp_xmit_frame (ring adapter xdpf : Nat)
  | xdp_return_frame (xdpf : Nat)
  | spin_unlock (ring : Nat)
  | xdp_do_redirect (netdev xdp prog : Nat)
  | bpf_warn_invalid_xdp_action (netdev prog act : Nat)
  | ena_increase_stat (statp : xdp_stat_ptr) (cnt : Nat)
deriving DecidableEq, Repr

/-- What the body of the `switch` leaves behind: the chosen counter address,
the new value of `verdict` and the calls made. -/
structure switch_result where
  xdp_stat : xdp_stat_ptr
  verdict : Nat
  trace : List Event
deriving DecidableEq, Repr

/-- The `switch (verdict)` statement of `ena_xdp_execute`. -/
def ena_xdp_execute_switch (k : Collaborators) (rx_ring : ena_ring) (xdp xdp_prog verdict : Nat) :
    switch_result :=
  if verdict = XDP_TX then
    let xdpf := k.xdp_convert_buff_to_frame xdp
    if xdpf = 0 then
      { xdp_stat := .xdp_aborted, verdict := ENA_XDP_DROP,
        trace := [.xdp_convert_buff_to_frame xdp,
                  .trace_xdp_exception rx_ring.netdev xdp_prog verdict] }
    else
      let xdp_ring := rx_ring.xdp_ring
      let rc := k.ena_xdp_xmit_frame xdp_ring rx_ring.adapter xdpf
      { xdp_stat := .xdp_tx, verdict := ENA_XDP_TX,
        trace := [.xdp_convert_buff_to_frame xdp, .spin_lock xdp_ring,
                  .ena_xdp_xmit_frame xdp_ring rx_ring.adapter xdpf] ++
                 (if rc ≠ 0 then [.xdp_return_frame xdpf] else []) ++
                 [.spin_unlock xdp_ring] }
  else if verdict = XDP_REDIRECT then
    if k.xdp_do_redirect rx_ring.netdev xdp xdp_prog = 0 then
      { xdp_stat := .xdp_redirect, verdict := ENA_XDP_REDIRECT,
        trace := [.xdp_do_redirect rx_ring.netdev xdp xdp_prog] }
    else
      { xdp_stat := .xdp_aborted, verdict := ENA_XDP_DROP,
        trace := [.xdp_do_redirect rx_ring.netdev xdp xdp_prog,
                  .trace_xdp_exception rx_ring.netdev xdp_prog verdict] }
  else if verdict = XDP_ABORTED then
    { xdp_stat := .xdp_aborted, verdict := ENA_XDP_DROP,
      trace := [.trace_xdp_exception rx_ring.netdev xdp_prog verdict] }
  else if verdict = XDP_DROP then
    { xdp_stat := .xdp_drop, verdict := ENA_XDP_DROP, trace := [] }
  else if verdict = XDP_PASS then
    { xdp_stat := .xdp_pass, verdict := ENA_XDP_PASS, trace := [] }
  else
    { xdp_stat := .xdp_invalid, verdict := ENA_XDP_DROP,
      trace := [.bpf_warn_invalid_xdp_action rx_ring.netdev xdp_prog verdict] }

/-- The outcome of one call of `ena_xdp_execute`: the returned value, the
receive ring afterwards and the calls made, in order. -/
structure exec_result where
  ret : Nat
  rx_ring : ena_ring
  trace : List Event
deriving DecidableEq, Repr

/-- The function `ena_xdp_execute`. -/
def ena_xdp_execute (k : Collaborators) (rx_ring : ena_ring) (xdp : Nat) : exec_result :=
  let xdp_prog := rx_ring.xdp_bpf_prog
  let verdict := k.bpf_prog_run_xdp xdp_prog xdp
  let sw := ena_xdp_execute_switch k rx_ring xdp xdp_prog verdict
  { ret := sw.verdict,
    rx_ring := { rx_ring with rx_stats := ena_increase_stat rx_ring.rx_stats sw.xdp_stat 1 },
    trace := [.bpf_prog_run_xdp xdp_prog xdp] ++ sw.trace ++ [.ena_increase_stat sw.xdp_stat 1] }

/-- The counter at `statp` is one higher in `after` than in `before`. -/
def incremented (statp : xdp_stat_ptr) (before after : ena_stats_rx) : Prop :=
  statp.load after = statp.load before + 1

/-- The counter at `statp` is the same in `after` as in `before`. -/
def unchanged (statp : xdp_stat_ptr) (before after : ena_stats_rx) : Prop :=
  statp.load after = statp.load before

instance (statp : xdp_stat_ptr) (b a : ena_stats_rx) : Decidable (incremented statp b a) :=
  inferInstanceAs (Decidable (statp.load a = statp.load b + 1))

instance (statp : xdp_stat_ptr) (b a : ena_stats_rx) : Decidable (unchanged statp b a) :=
  inferInstanceAs (Decidable (statp.load a = statp.load b))

/-- The trace takes the transmit lock. -/
def acquires_lock (t : List Event) : Bool :=
  t.any fun e => match e with
    | .spin_lock _ => true
    | _ => false

/-- The trace submits a frame to a transmit queue. -/
def submits_frame (t : List Event) : Bool :=
  t.any fun e => match e with
    | .ena_xdp_xmit_frame _ _ _ => true
    | _ => false

/-! ## Concrete rings and collaborators used in the examples -/

/-- Collaborators with fixed outcomes: the program returns `verdict`, frame
conversion returns `xdpf`, submission returns `xmit_rc` and redirection
returns `redirect_rc`. -/
def fixed_outcomes (verdict xdpf : Nat) (xmit_rc redirect_rc : Int) : Collaborators :=
  { bpf_prog_run_xdp := fun _ _ => verdict,
    xdp_convert_buff_to_frame := fun _ => xdpf,
    ena_xdp_xmit_frame := fun _ _ _ => xmit_rc,
    xdp_do_redirect := fun _ _ _ => redirect_rc }

/-- A receive ring with program `0x1000`, transmit ring `0x2000` and some
traffic already counted. -/
def ring0 : ena_ring :=
  { rx_stats := { xdp_aborted := 1, xdp_drop := 2, xdp_pass := 3, xdp_tx := 4,
                  xdp_invalid := 5, xdp_redirect := 6 },
    xdp_bpf_prog := 4096, xdp_ring := 8192, netdev := 12288, adapter := 16384 }

/-- The action that goes with each counter: `xdp_pass` with `ENA_XDP_PASS`,
`xdp_tx` with `ENA_XDP_TX`, `xdp_redirect` with `ENA_XDP_REDIRECT`, and the three
drop counters `xdp_drop`, `xdp_aborted`, `xdp_invalid` with `ENA_XDP_DROP`. -/
def counter_action : xdp_stat_ptr → Nat
  | .xdp_pass => ENA_XDP_PASS
  | .xdp_tx => ENA_XDP_TX
  | .xdp_redirect => ENA_XDP_REDIRECT
  | .xdp_drop => ENA_XDP_DROP
  | .xdp_aborted => ENA_XDP_DROP
  | .xdp_invalid => ENA_XDP_DROP

/-! ## Observations on a trace -/

/-- The frames submitted in the trace, each with its transmit ring and adapter,
in order. -/
def submissions (t : List Event) : List (Nat × Nat × Nat) :=
  t.filterMap fun e => match e with
    | .ena_xdp_xmit_frame ring adapter xdpf => some (ring, adapter, xdpf)
    | _ => none

/-- The frames released by `xdp_return_frame` in the trace, in order. -/
def released_frames (t : List Event) : List Nat :=
  t.filterMap fun e => match e with
    | .xdp_return_frame xdpf => some xdpf
    | _ => none

/-- The calls of `xdp_do_redirect` in the trace, each with its device, packet
buffer and program, in order. -/
def redirections (t : List Event) : List (Nat × Nat × Nat) :=
  t.filterMap fun e => match e with
    | .xdp_do_redirect netdev xdp prog => some (netdev, xdp, prog)
    | _ => none

/-- The packet buffers handed to frame conversion in the trace, in order. -/
def conversions (t : List Event) : List Nat :=
  t.filterMap fun e => match e with
    | .xdp_convert_buff_to_frame xdp => some xdp
    | _ => none

/-- The locks taken by `spin_lock` in the trace, in order. -/
def lock_acquisitions (t : List Event) : List Nat :=
  t.filterMap fun e => match e with
    | .spin_lock ring => some ring
    | _ => none

/-- The walk of a trace with the lock state `held` (the ring whose
`xdp_tx_lock` is held, if any): `spin_lock` needs the lock free, `spin_unlock`
needs that same lock held, a submission needs the lock of its ring held, the
release of a frame needs a lock held, every other call needs the lock free,
and at the end of the trace the lock is free. -/
def lock_discipline_from : Option Nat → List Event → Bool
  | held, [] => held.isNone
  | held, .spin_lock ring :: t => held.isNone && lock_discipline_from (some ring) t
  | held, .spin_unlock ring :: t => (held == some ring) && lock_discipline_from none t
  | held, .ena_xdp_xmit_frame ring _ _ :: t =>
    (held == some ring) && lock_discipline_from held t
  | held, .xdp_return_frame _ :: t => held.isSome && lock_discipline_from held t
  | held, .bpf_prog_run_xdp _ _ :: t => held.isNone && lock_discipline_from held t
  | held, .xdp_convert_buff_to_frame _ :: t => held.isNone && lock_discipline_from held t
  | held, .trace_xdp_exception _ _ _ :: t => held.isNone && lock_discipline_from held t
  | held, .xdp_do_redirect _ _ _ :: t => held.isNone && lock_discipline_from held t
  | held, .bpf_warn_invalid_xdp_action _ _ _ :: t =>
    held.isNone && lock_discipline_from held t
  | held, .ena_increase_stat _ _ :: t => held.isNone && lock_discipline_from held t

/-- The lock discipline of a whole call, which starts with the lock free. -/
def lock_discipline (t : List Event) : Bool :=
  lock_discipline_from none t

/-! ## Zero-copy pool presence -/

/-- The macro `ENA_IS_XSK_RING(ring)` of the `ENA_AF_XDP_SUPPORT` build. -/
def ENA_IS_XSK_RING (ring : ena_ring) : Bool :=
  ring.xsk_pool != 0

/-- The largest value of a C `int`. -/
def INT_MAX : Nat := 2 ^ 31 - 1

/-- The `for` loop of `ena_is_zc_q_exist` from index `i` on. The first argument
bounds the number of iterations and only serves the recursion. The result is
`none` where C leaves the behaviour undefined: a read of `rx_ring[i]` outside
the array, or an increment of the `int` index past `INT_MAX`. -/
def ena_is_zc_q_exist_loop (adapter : ena_adapter) : Nat → Nat → Option Bool
  | 0, _ => none
  | fuel + 1, i =>
    if i < adapter.num_io_queues then
      match adapter.rx_ring[i]? with
      | none => none
      | some ring =>
        if ENA_IS_XSK_RING ring then some true
        else if i + 1 > INT_MAX then none
        else ena_is_zc_q_exist_loop adapter fuel (i + 1)
    else some false

/-- The function `ena_is_zc_q_exist` of the `ENA_AF_XDP_SUPPORT` build; the
loop runs at most `num_io_queues + 1` tests of its condition. -/
def ena_is_zc_q_exist (adapter : ena_adapter) : Option Bool :=
  ena_is_zc_q_exist_loop adapter (adapter.num_io_queues + 1) 0

/-- Ring `i` of the adapter has a zero-copy pool attached. -/
def has_xsk_pool (adapter : ena_adapter) (i : Nat) : Prop :=
  ∃ ring, adapter.rx_ring[i]? = some ring ∧ ring.xsk_pool ≠ 0

/-- An adapter with the given rings and configured queue count. -/
def mk_zc_adapter (rings : List ena_ring) (queues : Nat) : ena_adapter :=
  { rx_ring := rings, num_io_queues := queues }

/-- A ring with the zero-copy pool at the given address. -/
def xsk_ring (pool : Nat) : ena_ring := { xsk_pool := pool }

/-! ## Auxiliary facts -/

theorem u32_of_lt {n : Nat} (h : n < 2 ^ 32) : u32 n = n := by
  unfold u32; exact Nat.mod_eq_of_lt h

theorem usub_of_le {bits a b : Nat} (ha : a < 2 ^ bits) (hb : b ≤ a) :
    usub bits a b = a - b := by
  unfold usub
  have hb2 : b % 2 ^ bits = b := Nat.mod_eq_of_lt (lt_of_le_of_lt hb ha)
  rw [Nat.mod_eq_of_lt ha, hb2]
  have e : a + 2 ^ bits - b = (a - b) + 2 ^ bits := by omega
  rw [e, Nat.add_mod_right]
  exact Nat.mod_eq_of_lt (lt_of_le_of_lt (Nat.sub_le a b) ha)

theorem ena_xdp_allowed_mtu_iff (p : Platform) (a : ena_adapter) :
    ena_xdp_allowed p a = ENA_XDP_CURRENT_MTU_TOO_LARGE ↔ ENA_XDP_MAX_MTU p < a.netdev.mtu := by
  unfold ena_xdp_allowed
  by_cases h : a.netdev.mtu > ENA_XDP_MAX_MTU p
  · simp [h]
  · have h2 : ¬ ENA_XDP_MAX_MTU p < a.netdev.mtu := h
    by_cases hq : ena_xdp_legal_queue_count a a.num_io_queues = true <;> simp [h, h2, hq]

theorem ena_xdp_allowed_queues_iff (p : Platform) (a : ena_adapter) :
    ena_xdp_allowed p a = ENA_XDP_NO_ENOUGH_QUEUES ↔
      a.netdev.mtu ≤ ENA_XDP_MAX_MTU p ∧
        ena_xdp_legal_queue_count a a.num_io_queues = false := by
  unfold ena_xdp_allowed
  by_cases h : a.netdev.mtu > ENA_XDP_MAX_MTU p
  · have h2 : ¬ a.netdev.mtu ≤ ENA_XDP_MAX_MTU p := not_le.mpr h
    simp [h, h2]
  · have h2 : a.netdev.mtu ≤ ENA_XDP_MAX_MTU p := not_lt.mp h
    by_cases hq : ena_xdp_legal_queue_count a a.num_io_queues = true <;> simp [h, h2, hq]

theorem ena_xdp_allowed_ok_iff (p : Platform) (a : ena_adapter) :
    ena_xdp_allowed p a = ENA_XDP_ALLOWED ↔
      a.netdev.mtu ≤ ENA_XDP_MAX_MTU p ∧
        ena_xdp_legal_queue_count a a.num_io_queues = true := by
  unfold ena_xdp_allowed
  by_cases h : a.netdev.mtu > ENA_XDP_MAX_MTU p
  · have h2 : ¬ a.netdev.mtu ≤ ENA_XDP_MAX_MTU p := not_le.mpr h
    simp [h, h2]
  · have h2 : a.netdev.mtu ≤ ENA_XDP_MAX_MTU p := not_lt.mp h
    by_cases hq : ena_xdp_legal_queue_count a a.num_io_queues = true <;> simp [h, h2, hq]

theorem legal_queue_count_true_iff (a : ena_adapter) (q : Nat) :
    ena_xdp_legal_queue_count a q = true ↔ (2 * q) % 2 ^ 32 ≤ a.max_num_io_queues := by
  simp [ena_xdp_legal_queue_count, u32]

theorem legal_queue_count_false_iff (a : ena_adapter) (q : Nat) :
    ena_xdp_legal_queue_count a q = false ↔ a.max_num_io_queues < (2 * q) % 2 ^ 32 := by
  simp [ena_xdp_legal_queue_count, u32]

theorem ena_increase_stat_load (s : ena_stats_rx) (statp c : xdp_stat_ptr) (cnt : Nat) :
    c.load (ena_increase_stat s statp cnt) = if c = statp then c.load s + cnt else c.load s := by
  cases c <;> cases statp <;> simp [ena_increase_stat, xdp_stat_ptr.load, xdp_stat_ptr.store]

theorem incremented_iff (s : ena_stats_rx) (statp c : xdp_stat_ptr) :
    incremented c s (ena_increase_stat s statp 1) ↔ c = statp := by
  unfold incremented
  rw [ena_increase_stat_load]
  by_cases h : c = statp <;> simp [h]

theorem unchanged_iff (s : ena_stats_rx) (statp c : xdp_stat_ptr) :
    unchanged c s (ena_increase_stat s statp 1) ↔ c ≠ statp := by
  unfold unchanged
  rw [ena_increase_stat_load]
  by_cases h : c = statp <;> simp [h]

theorem execute_stats (k : Collaborators) (r : ena_ring) (xdp : Nat) :
    (ena_xdp_execute k r xdp).rx_ring.rx_stats =
      ena_increase_stat r.rx_stats
        (ena_xdp_execute_switch k r xdp r.xdp_bpf_prog
          (k.bpf_prog_run_xdp r.xdp_bpf_prog xdp)).xdp_stat 1 := rfl

theorem execute_ret (k : Collaborators) (r : ena_ring) (xdp : Nat) :
    (ena_xdp_execute k r xdp).ret =
      (ena_xdp_execute_switch k r xdp r.xdp_bpf_prog
        (k.bpf_prog_run_xdp r.xdp_bpf_prog xdp)).verdict := rfl

/-- The counter chosen by the `switch` and the value it leaves in `verdict`
always go together in one of six ways. -/
theorem switch_pairs (k : Collaborators) (r : ena_ring) (xdp prog v : Nat) :
    ((ena_xdp_execute_switch k r xdp prog v).xdp_stat = .xdp_aborted ∧
        (ena_xdp_execute_switch k r xdp prog v).verdict = ENA_XDP_DROP) ∨
      ((ena_xdp_execute_switch k r xdp prog v).xdp_stat = .xdp_tx ∧
        (ena_xdp_execute_switch k r xdp prog v).verdict = ENA_XDP_TX) ∨
      ((ena_xdp_execute_switch k r xdp prog v).xdp_stat = .xdp_redirect ∧
        (ena_xdp_execute_switch k r xdp prog v).verdict = ENA_XDP_REDIRECT) ∨
      ((ena_xdp_execute_switch k r xdp prog v).xdp_stat = .xdp_drop ∧
        (ena_xdp_execute_switch k r xdp prog v).verdict = ENA_XDP_DROP) ∨
      ((ena_xdp_execute_switch k r xdp prog v).xdp_stat = .xdp_pass ∧
        (ena_xdp_execute_switch k r xdp prog v).verdict = ENA_XDP_PASS) ∨
      ((ena_xdp_execute_switch k r xdp prog v).xdp_stat = .xdp_invalid ∧
        (ena_xdp_execute_switch k r xdp prog v).verdict = ENA_XDP_DROP) := by
  unfold ena_xdp_execute_switch
  by_cases h3 : v = XDP_TX
  · rw [if_pos h3]
    by_cases hc : k.xdp_convert_buff_to_frame xdp = 0 <;> simp [hc]
  · rw [if_neg h3]
    by_cases h4 : v = XDP_REDIRECT
    · rw [if_pos h4]
      by_cases hr : k.xdp_do_redirect r.netdev xdp prog = 0 <;> simp [hr]
    · rw [if_neg h4]
      by_cases h0 : v = XDP_ABORTED
      · rw [if_pos h0]; simp
      · rw [if_neg h0]
        by_cases h1 : v = XDP_DROP
        · rw [if_pos h1]; simp
        · rw [if_neg h1]
          by_cases h2 : v = XDP_PASS
          · rw [if_pos h2]; simp
          · rw [if_neg h2]; simp

/-- The `default` branch of the `switch`. -/
theorem switch_default (k : Collaborators) (r : ena_ring) (xdp prog v : Nat)
    (h0 : v ≠ XDP_ABORTED) (h1 : v ≠ XDP_DROP) (h2 : v ≠ XDP_PASS) (h3 : v ≠ XDP_TX)
    (h4 : v ≠ XDP_REDIRECT) :
    ena_xdp_execute_switch k r xdp prog v =
      { xdp_stat := .xdp_invalid, verdict := ENA_XDP_DROP,
        trace := [.bpf_warn_invalid_xdp_action r.netdev prog v] } := by
  unfold ena_xdp_execute_switch
  rw [if_neg h3, if_neg h4, if_neg h0, if_neg h1, if_neg h2]

/-- The `case XDP_ABORTED` branch of the `switch`. -/
theorem switch_aborted (k : Collaborators) (r : ena_ring) (xdp prog : Nat) :
    ena_xdp_execute_switch k r xdp prog XDP_ABORTED =
      { xdp_stat := .xdp_aborted, verdict := ENA_XDP_DROP,
        trace := [.trace_xdp_exception r.netdev prog XDP_ABORTED] } := by
  unfold ena_xdp_execute_switch
  rw [if_neg (by decide), if_neg (by decide), if_pos rfl]

/-- The `case XDP_TX` branch of the `switch` when frame conversion fails. -/
theorem switch_tx_no_frame (k : Collaborators) (r : ena_ring) (xdp prog : Nat)
    (hc : k.xdp_convert_buff_to_frame xdp = 0) :
    ena_xdp_execute_switch k r xdp prog XDP_TX =
      { xdp_stat := .xdp_aborted, verdict := ENA_XDP_DROP,
        trace := [.xdp_convert_buff_to_frame xdp,
                  .trace_xdp_exception r.netdev prog XDP_TX] } := by
  unfold ena_xdp_execute_switch
  rw [if_pos rfl]
  simp only [hc, if_true]

/-- The `case XDP_TX` branch of the `switch` when frame conversion succeeds. -/
theorem switch_tx_frame (k : Collaborators) (r : ena_ring) (xdp prog : Nat)
    (hc : k.xdp_convert_buff_to_frame xdp ≠ 0) :
    ena_xdp_execute_switch k r xdp prog XDP_TX =
      { xdp_stat := .xdp_tx, verdict := ENA_XDP_TX,
        trace := [.xdp_convert_buff_to_frame xdp, .spin_lock r.xdp_ring,
                  .ena_xdp_xmit_frame r.xdp_ring r.adapter (k.xdp_convert_buff_to_frame xdp)] ++
                 (if k.ena_xdp_xmit_frame r.xdp_ring r.adapter
                      (k.xdp_convert_buff_to_frame xdp) ≠ 0
                  then [.xdp_return_frame (k.xdp_convert_buff_to_frame xdp)] else []) ++
                 [.spin_unlock r.xdp_ring] } := by
  unfold ena_xdp_execute_switch
  rw [if_pos rfl]
  simp only [hc, if_false]

/-- The `case XDP_REDIRECT` branch of the `switch` when redirection succeeds. -/
theorem switch_redirect_ok (k : Collaborators) (r : ena_ring) (xdp prog : Nat)
    (hr : k.xdp_do_redirect r.netdev xdp prog = 0) :
    ena_xdp_execute_switch k r xdp prog XDP_REDIRECT =
      { xdp_stat := .xdp_redirect, verdict := ENA_XDP_REDIRECT,
        trace := [.xdp_do_redirect r.netdev xdp prog] } := by
  unfold ena_xdp_execute_switch
  rw [if_neg (by decide), if_pos rfl, if_pos hr]

/-- The `case XDP_REDIRECT` branch of the `switch` when redirection fails. -/
theorem switch_redirect_fail (k : Collaborators) (r : ena_ring) (xdp prog : Nat)
    (hr : k.xdp_do_redirect r.netdev xdp prog ≠ 0) :
    ena_xdp_execute_switch k r xdp prog XDP_REDIRECT =
      { xdp_stat := .xdp_aborted, verdict := ENA_XDP_DROP,
        trace := [.xdp_do_redirect r.netdev xdp prog,
                  .trace_xdp_exception r.netdev prog XDP_REDIRECT] } := by
  unfold ena_xdp_execute_switch
  rw [if_neg (by decide), if_pos rfl, if_neg hr]

/-- The `case XDP_DROP` branch of the `switch`. -/
theorem switch_drop (k : Collaborators) (r : ena_ring) (xdp prog : Nat) :
    ena_xdp_execute_switch k r xdp prog XDP_DROP =
      { xdp_stat := .xdp_drop, verdict := ENA_XDP_DROP, trace := [] } := by
  unfold ena_xdp_execute_switch
  rw [if_neg (by decide), if_neg (by decide), if_neg (by decide), if_pos rfl]

/-- The `case XDP_PASS` branch of the `switch`. -/
theorem switch_pass (k : Collaborators) (r : ena_ring) (xdp prog : Nat) :
    ena_xdp_execute_switch k r xdp prog XDP_PASS =
      { xdp_stat := .xdp_pass, verdict := ENA_XDP_PASS, trace := [] } := by
  unfold ena_xdp_execute_switch
  rw [if_neg (by decide), if_neg (by decide), if_neg (by decide), if_neg (by decide),
    if_pos rfl]

theorem execute_trace (k : Collaborators) (r : ena_ring) (xdp : Nat) :
    (ena_xdp_execute k r xdp).trace =
      .bpf_prog_run_xdp r.xdp_bpf_prog xdp ::
        ((ena_xdp_execute_switch k r xdp r.xdp_bpf_prog
            (k.bpf_prog_run_xdp r.xdp_bpf_prog xdp)).trace ++
          [.ena_increase_stat
            (ena_xdp_execute_switch k r xdp r.xdp_bpf_prog
              (k.bpf_prog_run_xdp r.xdp_bpf_prog xdp)).xdp_stat 1]) := rfl

/-- The counter chosen by the `switch` is `xdp_drop` only for verdict
`XDP_DROP`. -/
theorem switch_stat_drop_iff (k : Collaborators) (r : ena_ring) (xdp prog v : Nat) :
    (ena_xdp_execute_switch k r xdp prog v).xdp_stat = .xdp_drop ↔ v = XDP_DROP := by
  by_cases h3 : v = XDP_TX
  · subst h3
    by_cases hc : k.xdp_convert_buff_to_frame xdp = 0
    · rw [switch_tx_no_frame k r xdp prog hc]; simp [XDP_TX, XDP_DROP]
    · rw [switch_tx_frame k r xdp prog hc]; simp [XDP_TX, XDP_DROP]
  · by_cases h4 : v = XDP_REDIRECT
    · subst h4
      by_cases hr : k.xdp_do_redirect r.netdev xdp prog = 0
      · rw [switch_redirect_ok k r xdp prog hr]; simp [XDP_REDIRECT, XDP_DROP]
      · rw [switch_redirect_fail k r xdp prog hr]; simp [XDP_REDIRECT, XDP_DROP]
    · by_cases h0 : v = XDP_ABORTED
      · subst h0
        rw [switch_aborted]; simp [XDP_ABORTED, XDP_DROP]
      · by_cases h1 : v = XDP_DROP
        · subst h1
          rw [switch_drop]
          simp
        · by_cases h2 : v = XDP_PASS
          · subst h2
            rw [switch_pass]; simp [XDP_PASS, XDP_DROP]
          · rw [switch_default k r xdp prog v h0 h1 h2 h3 h4]; simp [h1]

/-- The calls made inside the `switch`: what is submitted, released,
redirected, converted and locked, for each verdict. -/
theorem switch_observations (k : Collaborators) (r : ena_ring) (xdp prog v : Nat) :
    submissions (ena_xdp_execute_switch k r xdp prog v).trace =
        (if v = XDP_TX ∧ k.xdp_convert_buff_to_frame xdp ≠ 0
         then [(r.xdp_ring, r.adapter, k.xdp_convert_buff_to_frame xdp)] else []) ∧
      redirections (ena_xdp_execute_switch k r xdp prog v).trace =
        (if v = XDP_REDIRECT then [(r.netdev, xdp, prog)] else []) ∧
      conversions (ena_xdp_execute_switch k r xdp prog v).trace =
        (if v = XDP_TX then [xdp] else []) ∧
      lock_acquisitions (ena_xdp_execute_switch k r xdp prog v).trace =
        (if v = XDP_TX ∧ k.xdp_convert_buff_to_frame xdp ≠ 0 then [r.xdp_ring] else []) ∧
      lock_discipline_from none
        ((ena_xdp_execute_switch k r xdp prog v).trace ++
          [.ena_increase_stat (ena_xdp_execute_switch k r xdp prog v).xdp_stat 1]) = true := by
  by_cases h3 : v = XDP_TX
  · subst h3
    by_cases hc : k.xdp_convert_buff_to_frame xdp = 0
    · rw [switch_tx_no_frame k r xdp prog hc]
      simp [submissions, redirections, conversions, lock_acquisitions, lock_discipline_from,
        hc, XDP_TX, XDP_REDIRECT]
    · rw [switch_tx_frame k r xdp prog hc]
      by_cases hx : k.ena_xdp_xmit_frame r.xdp_ring r.adapter
          (k.xdp_convert_buff_to_frame xdp) = 0 <;>
        simp [submissions, redirections, conversions, lock_acquisitions, lock_discipline_from,
          hc, hx, XDP_TX, XDP_REDIRECT]
  · by_cases h4 : v = XDP_REDIRECT
    · subst h4
      by_cases hr : k.xdp_do_redirect r.netdev xdp prog = 0
      · rw [switch_redirect_ok k r xdp prog hr]
        simp [submissions, redirections, conversions, lock_acquisitions, lock_discipline_from,
          XDP_TX, XDP_REDIRECT]
      · rw [switch_redirect_fail k r xdp prog hr]
        simp [submissions, redirections, conversions, lock_acquisitions, lock_discipline_from,
          XDP_TX, XDP_REDIRECT]
    · by_cases h0 : v = XDP_ABORTED
      · subst h0
        rw [switch_aborted]
        simp [submissions, redirections, conversions, lock_acquisitions, lock_discipline_from,
          XDP_TX, XDP_REDIRECT, XDP_ABORTED]
      · by_cases h1 : v = XDP_DROP
        · subst h1
          rw [switch_drop]
          simp [submissions, redirections, conversions, lock_acquisitions,
            lock_discipline_from, XDP_TX, XDP_REDIRECT, XDP_DROP]
        · by_cases h2 : v = XDP_PASS
          · subst h2
            rw [switch_pass]
            simp [submissions, redirections, conversions, lock_acquisitions,
              lock_discipline_from, XDP_TX, XDP_REDIRECT, XDP_PASS]
          · rw [switch_default k r xdp prog v h0 h1 h2 h3 h4]
            simp [submissions, redirections, conversions, lock_acquisitions,
              lock_discipline_from, h3, h4]

/-- The loop of `ena_is_zc_q_exist`, started at `i` with enough iterations left
on an adapter whose array covers its queues, returns a result, and the result
is true exactly when a ring from `i` up to the queue count has a pool. -/
theorem zc_loop_spec (a : ena_adapter) (hb : a.num_io_queues ≤ a.rx_ring.length)
    (hi : a.num_io_queues ≤ INT_MAX) :
    ∀ fuel i : Nat, a.num_io_queues - i < fuel →
      ∃ b : Bool, ena_is_zc_q_exist_loop a fuel i = some b ∧
        (b = true ↔ ∃ j, i ≤ j ∧ j < a.num_io_queues ∧ has_xsk_pool a j) := by
  intro fuel
  induction fuel with
  | zero => intro i h; omega
  | succ fuel ih =>
    intro i h
    by_cases hlt : i < a.num_io_queues
    · have hlen : i < a.rx_ring.length := lt_of_lt_of_le hlt hb
      have hget : a.rx_ring[i]? = some (a.rx_ring[i]) := List.getElem?_eq_getElem hlen
      by_cases hx : ENA_IS_XSK_RING (a.rx_ring[i]) = true
      · refine ⟨true, ?_, ?_⟩
        · simp only [ena_is_zc_q_exist_loop, hlt, if_true, hget, hx]
        · refine ⟨fun _ => ⟨i, le_refl i, hlt, a.rx_ring[i], hget, ?_⟩, fun _ => rfl⟩
          simpa [ENA_IS_XSK_RING] using hx
      · have hnext : ¬ (i + 1 > INT_MAX) := by omega
        obtain ⟨b, hb1, hb2⟩ := ih (i + 1) (by omega)
        refine ⟨b, ?_, ?_⟩
        · simp only [ena_is_zc_q_exist_loop, hlt, if_true, hget, hx, hnext, if_false]
          exact hb1
        · rw [hb2]
          constructor
          · rintro ⟨j, hj1, hj2, hj3⟩
            exact ⟨j, by omega, hj2, hj3⟩
          · rintro ⟨j, hj1, hj2, hj3⟩
            have hne : j ≠ i := by
              rintro rfl
              obtain ⟨ring, hr1, hr2⟩ := hj3
              rw [hget] at hr1
              have hr3 : a.rx_ring[j] = ring := Option.some.inj hr1
              apply hx
              rw [hr3]
              simpa [ENA_IS_XSK_RING] using hr2
            exact ⟨j, by omega, hj2, hj3⟩
    · refine ⟨false, ?_, ?_⟩
      · simp only [ena_is_zc_q_exist_loop, hlt, if_false]
      · constructor
        · intro h2; cases h2
        · rintro ⟨j, hj1, hj2, _⟩
          omega

/-- On an adapter whose array covers its queues, `ena_is_zc_q_exist` returns
the Boolean value of "some configured ring has a pool". -/
theorem zc_exist_spec (a : ena_adapter) (hb : a.num_io_queues ≤ a.rx_ring.length)
    (hi : a.num_io_queues ≤ INT_MAX) :
    ∃ b : Bool, ena_is_zc_q_exist a = some b ∧
      (b = true ↔ ∃ i, i < a.num_io_queues ∧ has_xsk_pool a i) := by
  obtain ⟨b, h1, h2⟩ := zc_loop_spec a hb hi (a.num_io_queues + 1) 0 (by omega)
  refine ⟨b, h1, ?_⟩
  rw [h2]
  constructor
  · rintro ⟨j, _, hj2, hj3⟩
    exact ⟨j, hj2, hj3⟩
  · rintro ⟨j, hj2, hj3⟩
    exact ⟨j, Nat.zero_le j, hj2, hj3⟩

/-- Whether a ring below `n` has a pool depends on the first `n` rings only. -/
theorem has_xsk_pool_congr (a a2 : ena_adapter) (n j : Nat) (hj : j < n)
    (ht : a2.rx_ring.take n = a.rx_ring.take n) :
    has_xsk_pool a2 j ↔ has_xsk_pool a j := by
  have e1 : (a2.rx_ring.take n)[j]? = a2.rx_ring[j]? := List.getElem?_take_of_lt hj
  have e2 : (a.rx_ring.take n)[j]? = a.rx_ring[j]? := List.getElem?_take_of_lt hj
  have e : a2.rx_ring[j]? = a.rx_ring[j]? := by
    calc a2.rx_ring[j]? = (a2.rx_ring.take n)[j]? := e1.symm
      _ = (a.rx_ring.take n)[j]? := by rw [ht]
      _ = a.rx_ring[j]? := e2
  unfold has_xsk_pool
  rw [e]

/-- The `switch` leaves `ENA_XDP_TX` only for verdict `XDP_TX` and
`ENA_XDP_REDIRECT` only for verdict `XDP_REDIRECT`. -/
theorem switch_verdict_forwarded (k : Collaborators) (r : ena_ring) (xdp prog v : Nat) :
    ((ena_xdp_execute_switch k r xdp prog v).verdict = ENA_XDP_TX → v = XDP_TX) ∧
      ((ena_xdp_execute_switch k r xdp prog v).verdict = ENA_XDP_REDIRECT →
        v = XDP_REDIRECT) := by
  by_cases h3 : v = XDP_TX
  · subst h3
    by_cases hc : k.xdp_convert_buff_to_frame xdp = 0
    · rw [switch_tx_no_frame k r xdp prog hc]
      refine ⟨fun h => ?_, fun h => ?_⟩ <;> dsimp only at h <;>
        first | rfl | exact absurd h (by decide)
    · rw [switch_tx_frame k r xdp prog hc]
      refine ⟨fun h => ?_, fun h => ?_⟩ <;> dsimp only at h <;>
        first | rfl | exact absurd h (by decide)
  · by_cases h4 : v = XDP_REDIRECT
    · subst h4
      by_cases hr : k.xdp_do_redirect r.netdev xdp prog = 0
      · rw [switch_redirect_ok k r xdp prog hr]
        refine ⟨fun h => ?_, fun h => ?_⟩ <;> dsimp only at h <;>
          first | rfl | exact absurd h (by decide)
      · rw [switch_redirect_fail k r xdp prog hr]
        refine ⟨fun h => ?_, fun h => ?_⟩ <;> dsimp only at h <;>
          first | rfl | exact absurd h (by decide)
    · by_cases h0 : v = XDP_ABORTED
      · subst h0
        rw [switch_aborted]
        refine ⟨fun h => ?_, fun h => ?_⟩ <;> dsimp only at h <;>
          first | rfl | exact absurd h (by decide)
      · by_cases h1 : v = XDP_DROP
        · subst h1
          rw [switch_drop]
          refine ⟨fun h => ?_, fun h => ?_⟩ <;> dsimp only at h <;>
            first | rfl | exact absurd h (by decide)
        · by_cases h2 : v = XDP_PASS
          · subst h2
            rw [switch_pass]
            refine ⟨fun h => ?_, fun h => ?_⟩ <;> dsimp only at h <;>
              first | rfl | exact absurd h (by decide)
          · rw [switch_default k r xdp prog v h0 h1 h2 h3 h4]
            refine ⟨fun h => ?_, fun h => ?_⟩ <;> dsimp only at h <;>
              first | rfl | exact absurd h (by decide)

/-- The lock discipline rejects a lock left held, a second acquisition, a
submission or a frame release without the lock, an unlock of another lock and a
counter update under the lock, and accepts a locked submission. -/
theorem lock_discipline_examples :
    lock_discipline [.spin_lock 1] = false ∧
      lock_discipline [.spin_lock 1, .spin_lock 1, .spin_unlock 1] = false ∧
      lock_discipline [.ena_xdp_xmit_frame 1 2 3] = false ∧
      lock_discipline [.xdp_return_frame 3] = false ∧
      lock_discipline [.spin_lock 1, .spin_unlock 2] = false ∧
      lock_discipline [.spin_lock 1, .ena_increase_stat .xdp_tx 1, .spin_unlock 1] = false ∧
      lock_discipline [.spin_lock 1, .ena_xdp_xmit_frame 1 2 3, .spin_unlock 1] = true := by
  decide

/-- The value the `switch` leaves in `verdict` is the action of the counter
it chose. -/
theorem switch_verdict_counter_action (k : Collaborators) (r : ena_ring) (xdp prog v : Nat) :
    (ena_xdp_execute_switch k r xdp prog v).verdict =
      counter_action (ena_xdp_execute_switch k r xdp prog v).xdp_stat := by
  rcases switch_pairs k r xdp prog v with h | h | h | h | h | h <;>
  · rw [h.1, h.2]
    rfl

/-- The value the `switch` leaves in `verdict` is numerically the verdict it
was entered with only in the `XDP_REDIRECT` branch with a failed redirection,
where `ENA_XDP_DROP` and `XDP_REDIRECT` are both 4. -/
theorem switch_verdict_eq_raw_iff (k : Collaborators) (r : ena_ring) (xdp prog v : Nat) :
    (ena_xdp_execute_switch k r xdp prog v).verdict = v ↔
      v = XDP_REDIRECT ∧ k.xdp_do_redirect r.netdev xdp prog ≠ 0 := by
  have d3 : ENA_XDP_DROP ≠ XDP_TX := by decide
  have t3 : ENA_XDP_TX ≠ XDP_TX := by decide
  have r4 : ENA_XDP_REDIRECT ≠ XDP_REDIRECT := by decide
  have d4 : ENA_XDP_DROP = XDP_REDIRECT := by decide
  have d0 : ENA_XDP_DROP ≠ XDP_ABORTED := by decide
  have d1 : ENA_XDP_DROP ≠ XDP_DROP := by decide
  have p2 : ENA_XDP_PASS ≠ XDP_PASS := by decide
  by_cases h3 : v = XDP_TX
  · have hne : ¬ (v = XDP_REDIRECT ∧ k.xdp_do_redirect r.netdev xdp prog ≠ 0) := by
      rintro ⟨h, _⟩
      rw [h3] at h
      exact absurd h (by decide)
    subst h3
    by_cases hc : k.xdp_convert_buff_to_frame xdp = 0
    · rw [switch_tx_no_frame k r xdp prog hc]
      exact ⟨fun h => absurd h d3, fun h => absurd h hne⟩
    · rw [switch_tx_frame k r xdp prog hc]
      exact ⟨fun h => absurd h t3, fun h => absurd h hne⟩
  · by_cases h4 : v = XDP_REDIRECT
    · subst h4
      by_cases hr : k.xdp_do_redirect r.netdev xdp prog = 0
      · rw [switch_redirect_ok k r xdp prog hr]
        exact ⟨fun h => absurd h r4, fun h => absurd hr h.2⟩
      · rw [switch_redirect_fail k r xdp prog hr]
        exact ⟨fun _ => ⟨rfl, hr⟩, fun _ => d4⟩
    · have hne : ¬ (v = XDP_REDIRECT ∧ k.xdp_do_redirect r.netdev xdp prog ≠ 0) :=
        fun h => h4 h.1
      by_cases h0 : v = XDP_ABORTED
      · subst h0
        rw [switch_aborted]
        exact ⟨fun h => absurd h d0, fun h => absurd h hne⟩
      · by_cases h1 : v = XDP_DROP
        · subst h1
          rw [switch_drop]
          exact ⟨fun h => absurd h d1, fun h => absurd h hne⟩
        · by_cases h2 : v = XDP_PASS
          · subst h2
            rw [switch_pass]
            exact ⟨fun h => absurd h p2, fun h => absurd h hne⟩
          · rw [switch_default k r xdp prog v h0 h1 h2 h3 h4]
            exact ⟨fun h => absurd (d4.symm.trans h).symm h4, fun h => absurd h hne⟩

/-! ## Eligibility validator: results -/

/-- C1 (as stated, refuted): with MTU 1500, `2 ^ 31` configured queues and 8
hardware queues, all `u32` values, the MTU is admissible and the mathematical
product `2 * 2 ^ 31` exceeds 8, yet `ena_xdp_allowed` answers
`ENA_XDP_ALLOWED`, because the 32-bit product is 0. -/
theorem ena_xdp_allowed_unbounded_product_refuted :
    (mk_adapter 1500 (2 ^ 31) 8).in_range ∧
      ena_xdp_allowed linux64 (mk_adapter 1500 (2 ^ 31) 8) = ENA_XDP_ALLOWED ∧
      ¬ (2 * (mk_adapter 1500 (2 ^ 31) 8).num_io_queues ≤
          (mk_adapter 1500 (2 ^ 31) 8).max_num_io_queues) := by
  decide

/-- C1 (amended): `ena_xdp_allowed` returns `ENA_XDP_ALLOWED` exactly when the
MTU is at most `ENA_XDP_MAX_MTU` and the 32-bit product `2 * q mod 2 ^ 32` is at
most the hardware queue count; it returns `ENA_XDP_CURRENT_MTU_TOO_LARGE`
exactly when the MTU exceeds the maximum, and `ENA_XDP_NO_ENOUGH_QUEUES` exactly
when the MTU is admissible and the 32-bit product exceeds the hardware queue
count. For `q < 2 ^ 31` the 32-bit product is the mathematical one. -/
theorem ena_xdp_allowed_characterised (p : Platform) (a : ena_adapter) :
    (ena_xdp_allowed p a = ENA_XDP_ALLOWED ↔
        a.netdev.mtu ≤ ENA_XDP_MAX_MTU p ∧
          (2 * a.num_io_queues) % 2 ^ 32 ≤ a.max_num_io_queues) ∧
      (ena_xdp_allowed p a = ENA_XDP_CURRENT_MTU_TOO_LARGE ↔
        ENA_XDP_MAX_MTU p < a.netdev.mtu) ∧
      (ena_xdp_allowed p a = ENA_XDP_NO_ENOUGH_QUEUES ↔
        a.netdev.mtu ≤ ENA_XDP_MAX_MTU p ∧
          a.max_num_io_queues < (2 * a.num_io_queues) % 2 ^ 32) ∧
      (a.num_io_queues < 2 ^ 31 →
        (ena_xdp_allowed p a = ENA_XDP_ALLOWED ↔
          a.netdev.mtu ≤ ENA_XDP_MAX_MTU p ∧ 2 * a.num_io_queues ≤ a.max_num_io_queues)) := by
  refine ⟨?_, ena_xdp_allowed_mtu_iff p a, ?_, ?_⟩
  · rw [ena_xdp_allowed_ok_iff, legal_queue_count_true_iff]
  · rw [ena_xdp_allowed_queues_iff, legal_queue_count_false_iff]
  · intro hq
    have e : (2 * a.num_io_queues) % 2 ^ 32 = 2 * a.num_io_queues :=
      Nat.mod_eq_of_lt (by omega)
    rw [ena_xdp_allowed_ok_iff, legal_queue_count_true_iff, e]

/-- C1 (amended), at a concrete adapter: 3 queues of 8 with MTU 1500 are
allowed, by the last part of the characterisation. -/
theorem ena_xdp_allowed_characterised_witness :
    ena_xdp_allowed linux64 (mk_adapter 1500 3 8) = ENA_XDP_ALLOWED :=
  ((ena_xdp_allowed_characterised linux64 (mk_adapter 1500 3 8)).2.2.2 (by decide)).mpr
    ⟨by decide, by decide⟩

/-- C2: when the MTU exceeds `ENA_XDP_MAX_MTU` and the queue count is illegal
as well, `ena_xdp_allowed` reports `ENA_XDP_CURRENT_MTU_TOO_LARGE`; and whenever
it reports `ENA_XDP_NO_ENOUGH_QUEUES` the MTU is at most `ENA_XDP_MAX_MTU`. -/
theorem ena_xdp_allowed_mtu_checked_first (p : Platform) (a : ena_adapter) :
    (ENA_XDP_MAX_MTU p < a.netdev.mtu →
        ena_xdp_legal_queue_count a a.num_io_queues = false →
        ena_xdp_allowed p a = ENA_XDP_CURRENT_MTU_TOO_LARGE ∧
          ena_xdp_allowed p a ≠ ENA_XDP_NO_ENOUGH_QUEUES) ∧
      (ena_xdp_allowed p a = ENA_XDP_NO_ENOUGH_QUEUES →
        a.netdev.mtu ≤ ENA_XDP_MAX_MTU p) := by
  constructor
  · intro hm _
    have h := (ena_xdp_allowed_mtu_iff p a).mpr hm
    exact ⟨h, by rw [h]; decide⟩
  · intro h
    exact ((ena_xdp_allowed_queues_iff p a).mp h).1

/-- C2, at concrete adapters: MTU 9000 with 5 queues of 8 violates both
constraints and is reported as an MTU error; MTU 1500 with 5 queues of 8 is
reported as a queue error and its MTU is admissible. -/
theorem ena_xdp_allowed_mtu_checked_first_witness :
    (ena_xdp_allowed linux64 (mk_adapter 9000 5 8) = ENA_XDP_CURRENT_MTU_TOO_LARGE ∧
        ena_xdp_allowed linux64 (mk_adapter 9000 5 8) ≠ ENA_XDP_NO_ENOUGH_QUEUES) ∧
      (mk_adapter 1500 5 8).netdev.mtu ≤ ENA_XDP_MAX_MTU linux64 :=
  ⟨(ena_xdp_allowed_mtu_checked_first linux64 (mk_adapter 9000 5 8)).1 (by decide) (by decide),
   (ena_xdp_allowed_mtu_checked_first linux64 (mk_adapter 1500 5 8)).2 (by decide)⟩

/-- C3 (as stated, refuted): with 8 hardware queues the requested count
`2 ^ 31 + 3`, a `u32` value, has the integer double `2 ^ 32 + 6 > 8`, yet
`ena_xdp_legal_queue_count` returns true, because the 32-bit product is 6. -/
theorem ena_xdp_legal_queue_count_wrap_refuted :
    (2 ^ 31 + 3 < 2 ^ 32 ∧ (mk_adapter 1500 0 8).max_num_io_queues < 2 ^ 32) ∧
      ena_xdp_legal_queue_count (mk_adapter 1500 0 8) (2 ^ 31 + 3) = true ∧
      ¬ (2 * (2 ^ 31 + 3) ≤ (mk_adapter 1500 0 8).max_num_io_queues) := by
  decide

/-- C3 (amended): for a requested count `q < 2 ^ 31`, where the 32-bit product
does not wrap, `ena_xdp_legal_queue_count adapter q` is true exactly when
`2 * q ≤ t` over the integers, `t` being the hardware queue count; for a `u32`
count `q ≥ 2 ^ 31` it is true exactly when `2 * q - 2 ^ 32 ≤ t`. With `t = 8`,
`q = 3` is legal and `q = 5` is not. -/
theorem ena_xdp_legal_queue_count_characterised (a : ena_adapter) (q : Nat) :
    (q < 2 ^ 31 → (ena_xdp_legal_queue_count a q = true ↔ 2 * q ≤ a.max_num_io_queues)) ∧
      (2 ^ 31 ≤ q → q < 2 ^ 32 →
        (ena_xdp_legal_queue_count a q = true ↔ 2 * q - 2 ^ 32 ≤ a.max_num_io_queues)) ∧
      ena_xdp_legal_queue_count (mk_adapter 1500 0 8) 3 = true ∧
      ena_xdp_legal_queue_count (mk_adapter 1500 0 8) 5 = false := by
  refine ⟨?_, ?_, by decide, by decide⟩
  · intro hq
    have e : (2 * q) % 2 ^ 32 = 2 * q := Nat.mod_eq_of_lt (by omega)
    rw [legal_queue_count_true_iff, e]
  · intro hq1 hq2
    have e : (2 * q) % 2 ^ 32 = 2 * q - 2 ^ 32 := by
      have h1 : 2 * q = (2 * q - 2 ^ 32) + 2 ^ 32 := by omega
      have h2 : 2 * q - 2 ^ 32 < 2 ^ 32 := by omega
      calc (2 * q) % 2 ^ 32 = ((2 * q - 2 ^ 32) + 2 ^ 32) % 2 ^ 32 := by rw [← h1]
        _ = (2 * q - 2 ^ 32) % 2 ^ 32 := Nat.add_mod_right _ _
        _ = 2 * q - 2 ^ 32 := Nat.mod_eq_of_lt h2
    rw [legal_queue_count_true_iff, e]

/-- C3 (amended), at concrete inputs: 4 queues of 8 are legal, by the
non-wrapping part; `2 ^ 31 + 5` queues of 8 are not, by the wrapping part,
since `2 * (2 ^ 31 + 5) - 2 ^ 32 = 10`. -/
theorem ena_xdp_legal_queue_count_characterised_witness :
    ena_xdp_legal_queue_count (mk_adapter 1500 0 8) 4 = true ∧
      ¬ ena_xdp_legal_queue_count (mk_adapter 1500 0 8) (2 ^ 31 + 5) = true :=
  ⟨((ena_xdp_legal_queue_count_characterised (mk_adapter 1500 0 8) 4).1 (by decide)).mpr
      (by decide),
   fun h => absurd
    (((ena_xdp_legal_queue_count_characterised (mk_adapter 1500 0 8) (2 ^ 31 + 5)).2.1
      (by decide) (by decide)).mp h) (by decide)⟩

/-- C4 (as stated, refuted): on a kernel built without `XDP_HAS_FRAME_SZ` the
macro is 3818, not the six-term difference 3498, and an MTU of 3600, which
exceeds the six-term difference, is allowed. On a frame buffer smaller than
the overheads the unsigned difference wraps to `2 ^ 64 - 86`, while the
difference of the constants is `-86`. -/
theorem ENA_XDP_MAX_MTU_six_terms_refuted :
    (ENA_XDP_MAX_MTU linux64_old = 3818 ∧
        (linux64_old.ENA_PAGE_SIZE : Int) - linux64_old.ETH_HLEN - linux64_old.ETH_FCS_LEN -
          linux64_old.VLAN_HLEN - linux64_old.XDP_PACKET_HEADROOM -
          linux64_old.SKB_DATA_ALIGN_shinfo = 3498 ∧
        ena_xdp_allowed linux64_old (mk_adapter 3600 3 8) = ENA_XDP_ALLOWED) ∧
      (ENA_XDP_MAX_MTU linux64_small = 2 ^ 64 - 86 ∧
        (linux64_small.ENA_PAGE_SIZE : Int) - linux64_small.ETH_HLEN -
          linux64_small.ETH_FCS_LEN - linux64_small.VLAN_HLEN -
          linux64_small.XDP_PACKET_HEADROOM - linux64_small.SKB_DATA_ALIGN_shinfo = -86) := by
  decide

/-- C4 (amended): when the overheads fit in the frame buffer, `ENA_XDP_MAX_MTU`
is `ENA_PAGE_SIZE - ETH_HLEN - ETH_FCS_LEN - VLAN_HLEN - XDP_PACKET_HEADROOM`,
less `SKB_DATA_ALIGN(sizeof(struct skb_shared_info))` when `XDP_HAS_FRAME_SZ` is
defined, and `ena_xdp_allowed` reports `ENA_XDP_CURRENT_MTU_TOO_LARGE` exactly
when the MTU is strictly greater than that value. -/
theorem ENA_XDP_MAX_MTU_characterised (p : Platform) (a : ena_adapter)
    (hpage : p.ENA_PAGE_SIZE < 2 ^ p.BITS_PER_LONG)
    (hfit : p.ETH_HLEN + p.ETH_FCS_LEN + p.VLAN_HLEN + p.XDP_PACKET_HEADROOM +
      shinfo_overhead p ≤ p.ENA_PAGE_SIZE) :
    (ENA_XDP_MAX_MTU p : Int) =
        (p.ENA_PAGE_SIZE : Int) - p.ETH_HLEN - p.ETH_FCS_LEN - p.VLAN_HLEN -
          p.XDP_PACKET_HEADROOM - shinfo_overhead p ∧
      (ena_xdp_allowed p a = ENA_XDP_CURRENT_MTU_TOO_LARGE ↔
        (p.ENA_PAGE_SIZE : Int) - p.ETH_HLEN - p.ETH_FCS_LEN - p.VLAN_HLEN -
          p.XDP_PACKET_HEADROOM - shinfo_overhead p < a.netdev.mtu) := by
  have hmax : (ENA_XDP_MAX_MTU p : Int) =
      (p.ENA_PAGE_SIZE : Int) - p.ETH_HLEN - p.ETH_FCS_LEN - p.VLAN_HLEN -
        p.XDP_PACKET_HEADROOM - shinfo_overhead p := by
    have h1 : usub p.BITS_PER_LONG p.ENA_PAGE_SIZE p.ETH_HLEN =
        p.ENA_PAGE_SIZE - p.ETH_HLEN := usub_of_le hpage (by omega)
    have h2 : usub p.BITS_PER_LONG (p.ENA_PAGE_SIZE - p.ETH_HLEN) p.ETH_FCS_LEN =
        p.ENA_PAGE_SIZE - p.ETH_HLEN - p.ETH_FCS_LEN := usub_of_le (by omega) (by omega)
    have h3 : usub p.BITS_PER_LONG (p.ENA_PAGE_SIZE - p.ETH_HLEN - p.ETH_FCS_LEN) p.VLAN_HLEN =
        p.ENA_PAGE_SIZE - p.ETH_HLEN - p.ETH_FCS_LEN - p.VLAN_HLEN :=
      usub_of_le (by omega) (by omega)
    have h4 : usub p.BITS_PER_LONG
        (p.ENA_PAGE_SIZE - p.ETH_HLEN - p.ETH_FCS_LEN - p.VLAN_HLEN) p.XDP_PACKET_HEADROOM =
        p.ENA_PAGE_SIZE - p.ETH_HLEN - p.ETH_FCS_LEN - p.VLAN_HLEN - p.XDP_PACKET_HEADROOM :=
      usub_of_le (by omega) (by omega)
    unfold ENA_XDP_MAX_MTU
    simp only [h1, h2, h3, h4]
    unfold shinfo_overhead at hfit ⊢
    by_cases hsz : p.XDP_HAS_FRAME_SZ = true
    · simp only [hsz, if_true] at hfit ⊢
      rw [usub_of_le (by omega) (by omega)]
      omega
    · simp only [hsz, if_false] at hfit ⊢
      have hs : (false = true) = False := by simp
      simp only [hs, if_false]
      omega
  refine ⟨hmax, ?_⟩
  rw [ena_xdp_allowed_mtu_iff, ← hmax]
  exact Int.ofNat_lt.symm

/-- C4 (amended), on the example of the specification: a frame buffer of 4096
with overheads summing to 320 gives the maximum 3776; MTU 3800 is too large,
MTU 3700 and MTU 3776 with a legal queue count are allowed. -/
theorem ENA_XDP_MAX_MTU_characterised_witness :
    ((ENA_XDP_MAX_MTU overhead320 : Int) = 3776 ∧
        ena_xdp_allowed overhead320 (mk_adapter 3800 3 8) = ENA_XDP_CURRENT_MTU_TOO_LARGE) ∧
      ena_xdp_allowed overhead320 (mk_adapter 3700 3 8) = ENA_XDP_ALLOWED ∧
      ena_xdp_allowed overhead320 (mk_adapter 3776 3 8) = ENA_XDP_ALLOWED :=
  ⟨⟨(ENA_XDP_MAX_MTU_characterised overhead320 (mk_adapter 3800 3 8)
        (by decide) (by decide)).1.trans (by decide),
     (ENA_XDP_MAX_MTU_characterised overhead320 (mk_adapter 3800 3 8)
        (by decide) (by decide)).2.mpr (by decide)⟩,
   by decide, by decide⟩

/-! ## Queue range index: results -/

/-- C5 (as stated, refuted): with start index `2 ^ 32 - 1` and one fast-path
queue, all `u32` values, index `2 ^ 32 - 1` lies in the mathematical range
`start ≤ index < start + count`, yet `ENA_IS_XDP_INDEX` is false, because the
32-bit sum is 0. -/
theorem ENA_IS_XDP_INDEX_unbounded_sum_refuted :
    ({ xdp_first_ring := 2 ^ 32 - 1, xdp_num_queues := 1 } : ena_adapter).in_range ∧
      2 ^ 32 - 1 < 2 ^ 32 ∧
      (2 ^ 32 - 1 ≤ 2 ^ 32 - 1 ∧ 2 ^ 32 - 1 < (2 ^ 32 - 1) + 1) ∧
      ENA_IS_XDP_INDEX { xdp_first_ring := 2 ^ 32 - 1, xdp_num_queues := 1 } (2 ^ 32 - 1) =
        false := by
  decide

/-- C5 (amended): `ENA_IS_XDP_INDEX adapter i` is true exactly when
`s ≤ i < (s + c) mod 2 ^ 32`; when `s + c < 2 ^ 32` this is the range
`s ≤ i < s + c`, and when `c = 0` no index is in the range. -/
theorem ENA_IS_XDP_INDEX_characterised (a : ena_adapter) (i : Nat) :
    (ENA_IS_XDP_INDEX a i = true ↔
        a.xdp_first_ring ≤ i ∧ i < (a.xdp_first_ring + a.xdp_num_queues) % 2 ^ 32) ∧
      (a.xdp_first_ring + a.xdp_num_queues < 2 ^ 32 →
        (ENA_IS_XDP_INDEX a i = true ↔
          a.xdp_first_ring ≤ i ∧ i < a.xdp_first_ring + a.xdp_num_queues)) ∧
      (a.xdp_num_queues = 0 → ENA_IS_XDP_INDEX a i = false) := by
  have hmain : ENA_IS_XDP_INDEX a i = true ↔
      a.xdp_first_ring ≤ i ∧ i < (a.xdp_first_ring + a.xdp_num_queues) % 2 ^ 32 := by
    simp [ENA_IS_XDP_INDEX, u32]
  refine ⟨hmain, ?_, ?_⟩
  · intro hs
    rw [hmain, Nat.mod_eq_of_lt hs]
  · intro hc
    rw [Bool.eq_false_iff]
    intro h
    have h2 := hmain.mp h
    rw [hc, Nat.add_zero] at h2
    have h3 : a.xdp_first_ring % 2 ^ 32 ≤ a.xdp_first_ring := Nat.mod_le _ _
    omega

/-- C5 (amended), at a concrete adapter: with start index 4 and 4 fast-path
queues index 5 is in the range, and with no fast-path queue it is not. -/
theorem ENA_IS_XDP_INDEX_characterised_witness :
    ENA_IS_XDP_INDEX { xdp_first_ring := 4, xdp_num_queues := 4 } 5 = true ∧
      ENA_IS_XDP_INDEX { xdp_first_ring := 4, xdp_num_queues := 0 } 5 = false :=
  ⟨((ENA_IS_XDP_INDEX_characterised { xdp_first_ring := 4, xdp_num_queues := 4 } 5).2.1
      (by decide)).mpr ⟨by decide, by decide⟩,
   (ENA_IS_XDP_INDEX_characterised { xdp_first_ring := 4, xdp_num_queues := 0 } 5).2.2 rfl⟩

/-! ## Action dispatcher: results -/

/-- C6: whatever the ring, the packet, the verdict and the outcomes of the
collaborators, one call of `ena_xdp_execute` raises exactly one of the six
XDP counters by exactly 1 and leaves the other five as they were. -/
theorem ena_xdp_execute_one_counter (k : Collaborators) (rx_ring : ena_ring) (xdp : Nat) :
    ∃ c : xdp_stat_ptr,
      incremented c rx_ring.rx_stats (ena_xdp_execute k rx_ring xdp).rx_ring.rx_stats ∧
        ∀ c2 : xdp_stat_ptr, c2 ≠ c →
          unchanged c2 rx_ring.rx_stats (ena_xdp_execute k rx_ring xdp).rx_ring.rx_stats := by
  refine ⟨(ena_xdp_execute_switch k rx_ring xdp rx_ring.xdp_bpf_prog
    (k.bpf_prog_run_xdp rx_ring.xdp_bpf_prog xdp)).xdp_stat, ?_, ?_⟩
  · rw [execute_stats, incremented_iff]
  · intro c2 hc2
    rw [execute_stats, unchanged_iff]
    exact hc2

/-- C7: every call of `ena_xdp_execute` raises one counter by 1, leaves the
other five as they were, and returns the action of the counter it raised;
hence it returns `ENA_XDP_PASS` exactly when `xdp_pass` was raised,
`ENA_XDP_TX` exactly when `xdp_tx` was raised, `ENA_XDP_REDIRECT` exactly when
`xdp_redirect` was raised, and `ENA_XDP_DROP` exactly when one of `xdp_drop`,
`xdp_aborted`, `xdp_invalid` was raised. -/
theorem ena_xdp_execute_action_matches_counter (k : Collaborators) (rx_ring : ena_ring)
    (xdp : Nat) :
    (∃ c : xdp_stat_ptr,
        incremented c rx_ring.rx_stats (ena_xdp_execute k rx_ring xdp).rx_ring.rx_stats ∧
        (∀ c2 : xdp_stat_ptr, c2 ≠ c →
          unchanged c2 rx_ring.rx_stats (ena_xdp_execute k rx_ring xdp).rx_ring.rx_stats) ∧
        (ena_xdp_execute k rx_ring xdp).ret = counter_action c) ∧
      ((ena_xdp_execute k rx_ring xdp).ret = ENA_XDP_PASS ↔
        incremented .xdp_pass rx_ring.rx_stats
          (ena_xdp_execute k rx_ring xdp).rx_ring.rx_stats) ∧
      ((ena_xdp_execute k rx_ring xdp).ret = ENA_XDP_TX ↔
        incremented .xdp_tx rx_ring.rx_stats
          (ena_xdp_execute k rx_ring xdp).rx_ring.rx_stats) ∧
      ((ena_xdp_execute k rx_ring xdp).ret = ENA_XDP_REDIRECT ↔
        incremented .xdp_redirect rx_ring.rx_stats
          (ena_xdp_execute k rx_ring xdp).rx_ring.rx_stats) ∧
      ((ena_xdp_execute k rx_ring xdp).ret = ENA_XDP_DROP ↔
        incremented .xdp_drop rx_ring.rx_stats
            (ena_xdp_execute k rx_ring xdp).rx_ring.rx_stats ∨
          incremented .xdp_aborted rx_ring.rx_stats
            (ena_xdp_execute k rx_ring xdp).rx_ring.rx_stats ∨
          incremented .xdp_invalid rx_ring.rx_stats
            (ena_xdp_execute k rx_ring xdp).rx_ring.rx_stats) := by
  constructor
  · refine ⟨(ena_xdp_execute_switch k rx_ring xdp rx_ring.xdp_bpf_prog
      (k.bpf_prog_run_xdp rx_ring.xdp_bpf_prog xdp)).xdp_stat, ?_, ?_, ?_⟩
    · rw [execute_stats, incremented_iff]
    · intro c2 hc2
      rw [execute_stats, unchanged_iff]
      exact hc2
    · rw [execute_ret]
      exact switch_verdict_counter_action k rx_ring xdp _ _
  · rw [execute_stats, execute_ret]
    simp only [incremented_iff]
    rcases switch_pairs k rx_ring xdp rx_ring.xdp_bpf_prog
        (k.bpf_prog_run_xdp rx_ring.xdp_bpf_prog xdp) with
      h | h | h | h | h | h <;>
    · rw [h.1, h.2]
      decide

/-- C8: a verdict that is none of `XDP_ABORTED`, `XDP_DROP`, `XDP_PASS`,
`XDP_TX`, `XDP_REDIRECT` makes `ena_xdp_execute` return `ENA_XDP_DROP`, raise
`xdp_invalid` by 1 and leave `xdp_drop` as it was. -/
theorem ena_xdp_execute_unknown_verdict (k : Collaborators) (rx_ring : ena_ring) (xdp : Nat)
    (h0 : k.bpf_prog_run_xdp rx_ring.xdp_bpf_prog xdp ≠ XDP_ABORTED)
    (h1 : k.bpf_prog_run_xdp rx_ring.xdp_bpf_prog xdp ≠ XDP_DROP)
    (h2 : k.bpf_prog_run_xdp rx_ring.xdp_bpf_prog xdp ≠ XDP_PASS)
    (h3 : k.bpf_prog_run_xdp rx_ring.xdp_bpf_prog xdp ≠ XDP_TX)
    (h4 : k.bpf_prog_run_xdp rx_ring.xdp_bpf_prog xdp ≠ XDP_REDIRECT) :
    (ena_xdp_execute k rx_ring xdp).ret = ENA_XDP_DROP ∧
      incremented .xdp_invalid rx_ring.rx_stats
        (ena_xdp_execute k rx_ring xdp).rx_ring.rx_stats ∧
      unchanged .xdp_drop rx_ring.rx_stats
        (ena_xdp_execute k rx_ring xdp).rx_ring.rx_stats := by
  rw [execute_stats, execute_ret, incremented_iff, unchanged_iff,
    switch_default k rx_ring xdp _ _ h0 h1 h2 h3 h4]
  exact ⟨rfl, rfl, by simp⟩

/-- C8, at a concrete call: verdict 7 on `ring0` returns `ENA_XDP_DROP`, takes
`xdp_invalid` from 5 to 6 and leaves `xdp_drop` at 2. -/
theorem ena_xdp_execute_unknown_verdict_witness :
    (ena_xdp_execute (fixed_outcomes 7 9 0 0) ring0 77).ret = ENA_XDP_DROP ∧
      incremented .xdp_invalid ring0.rx_stats
        (ena_xdp_execute (fixed_outcomes 7 9 0 0) ring0 77).rx_ring.rx_stats ∧
      unchanged .xdp_drop ring0.rx_stats
        (ena_xdp_execute (fixed_outcomes 7 9 0 0) ring0 77).rx_ring.rx_stats :=
  ena_xdp_execute_unknown_verdict (fixed_outcomes 7 9 0 0) ring0 77
    (by decide) (by decide) (by decide) (by decide) (by decide)

/-- C9 (as stated, refuted): verdict 0 (`XDP_ABORTED`) is none of `XDP_TX`,
`XDP_REDIRECT`, `XDP_DROP`, `XDP_PASS`, yet `ena_xdp_execute` does not raise
`xdp_invalid`: it raises `xdp_aborted`, and it reports the verdict through
`trace_xdp_exception`, not `bpf_warn_invalid_xdp_action`. -/
theorem ena_xdp_execute_aborted_not_invalid :
    (XDP_ABORTED ≠ XDP_TX ∧ XDP_ABORTED ≠ XDP_REDIRECT ∧ XDP_ABORTED ≠ XDP_DROP ∧
        XDP_ABORTED ≠ XDP_PASS) ∧
      ¬ incremented .xdp_invalid ring0.rx_stats
        (ena_xdp_execute (fixed_outcomes XDP_ABORTED 9 0 0) ring0 77).rx_ring.rx_stats ∧
      incremented .xdp_aborted ring0.rx_stats
        (ena_xdp_execute (fixed_outcomes XDP_ABORTED 9 0 0) ring0 77).rx_ring.rx_stats ∧
      (ena_xdp_execute (fixed_outcomes XDP_ABORTED 9 0 0) ring0 77).trace =
        [.bpf_prog_run_xdp 4096 77, .trace_xdp_exception 12288 4096 0,
         .ena_increase_stat .xdp_aborted 1] := by
  decide

/-- C9 (amended): a verdict other than `XDP_TX`, `XDP_REDIRECT`, `XDP_DROP` and
`XDP_PASS` makes `ena_xdp_execute` return `ENA_XDP_DROP`; if it is also not
`XDP_ABORTED` the call raises `xdp_invalid` by 1, and if it is `XDP_ABORTED`
(the value 0) the call raises `xdp_aborted` by 1 and leaves `xdp_invalid` as
it was. -/
theorem ena_xdp_execute_other_verdicts (k : Collaborators) (rx_ring : ena_ring) (xdp : Nat)
    (h1 : k.bpf_prog_run_xdp rx_ring.xdp_bpf_prog xdp ≠ XDP_TX)
    (h2 : k.bpf_prog_run_xdp rx_ring.xdp_bpf_prog xdp ≠ XDP_REDIRECT)
    (h3 : k.bpf_prog_run_xdp rx_ring.xdp_bpf_prog xdp ≠ XDP_DROP)
    (h4 : k.bpf_prog_run_xdp rx_ring.xdp_bpf_prog xdp ≠ XDP_PASS) :
    (ena_xdp_execute k rx_ring xdp).ret = ENA_XDP_DROP ∧
      (k.bpf_prog_run_xdp rx_ring.xdp_bpf_prog xdp ≠ XDP_ABORTED →
        incremented .xdp_invalid rx_ring.rx_stats
          (ena_xdp_execute k rx_ring xdp).rx_ring.rx_stats) ∧
      (k.bpf_prog_run_xdp rx_ring.xdp_bpf_prog xdp = XDP_ABORTED →
        incremented .xdp_aborted rx_ring.rx_stats
            (ena_xdp_execute k rx_ring xdp).rx_ring.rx_stats ∧
          unchanged .xdp_invalid rx_ring.rx_stats
            (ena_xdp_execute k rx_ring xdp).rx_ring.rx_stats) := by
  rw [execute_stats, execute_ret, incremented_iff, incremented_iff, unchanged_iff]
  by_cases h0 : k.bpf_prog_run_xdp rx_ring.xdp_bpf_prog xdp = XDP_ABORTED
  · rw [h0, switch_aborted]
    exact ⟨rfl, fun h => absurd rfl h, fun _ => ⟨rfl, by simp⟩⟩
  · rw [switch_default k rx_ring xdp _ _ h0 h3 h4 h1 h2]
    exact ⟨rfl, fun _ => rfl, fun h => absurd h h0⟩

/-- C9 (amended), at concrete calls on `ring0`: verdict 7 raises `xdp_invalid`,
verdict 0 raises `xdp_aborted` and leaves `xdp_invalid` alone; both return
`ENA_XDP_DROP`. -/
theorem ena_xdp_execute_other_verdicts_witness :
    ((ena_xdp_execute (fixed_outcomes 7 9 0 0) ring0 77).ret = ENA_XDP_DROP ∧
        incremented .xdp_invalid ring0.rx_stats
          (ena_xdp_execute (fixed_outcomes 7 9 0 0) ring0 77).rx_ring.rx_stats) ∧
      ((ena_xdp_execute (fixed_outcomes 0 9 0 0) ring0 77).ret = ENA_XDP_DROP ∧
        incremented .xdp_aborted ring0.rx_stats
          (ena_xdp_execute (fixed_outcomes 0 9 0 0) ring0 77).rx_ring.rx_stats ∧
        unchanged .xdp_invalid ring0.rx_stats
          (ena_xdp_execute (fixed_outcomes 0 9 0 0) ring0 77).rx_ring.rx_stats) :=
  ⟨⟨(ena_xdp_execute_other_verdicts (fixed_outcomes 7 9 0 0) ring0 77
        (by decide) (by decide) (by decide) (by decide)).1,
     (ena_xdp_execute_other_verdicts (fixed_outcomes 7 9 0 0) ring0 77
        (by decide) (by decide) (by decide) (by decide)).2.1 (by decide)⟩,
   ⟨(ena_xdp_execute_other_verdicts (fixed_outcomes 0 9 0 0) ring0 77
        (by decide) (by decide) (by decide) (by decide)).1,
     (ena_xdp_execute_other_verdicts (fixed_outcomes 0 9 0 0) ring0 77
        (by decide) (by decide) (by decide) (by decide)).2.2 rfl⟩⟩

/-- C10: when the verdict is `XDP_TX` and frame conversion fails,
`ena_xdp_execute` returns `ENA_XDP_DROP`, raises `xdp_aborted` by 1, leaves
`xdp_tx` as it was, never takes the transmit lock and submits no frame: its
calls are the program run, the conversion, `trace_xdp_exception` and the
counter update, in that order. -/
theorem ena_xdp_execute_tx_conversion_failure (k : Collaborators) (rx_ring : ena_ring)
    (xdp : Nat) (hv : k.bpf_prog_run_xdp rx_ring.xdp_bpf_prog xdp = XDP_TX)
    (hc : k.xdp_convert_buff_to_frame xdp = 0) :
    (ena_xdp_execute k rx_ring xdp).ret = ENA_XDP_DROP ∧
      incremented .xdp_aborted rx_ring.rx_stats
        (ena_xdp_execute k rx_ring xdp).rx_ring.rx_stats ∧
      unchanged .xdp_tx rx_ring.rx_stats
        (ena_xdp_execute k rx_ring xdp).rx_ring.rx_stats ∧
      acquires_lock (ena_xdp_execute k rx_ring xdp).trace = false ∧
      submits_frame (ena_xdp_execute k rx_ring xdp).trace = false ∧
      (ena_xdp_execute k rx_ring xdp).trace =
        [.bpf_prog_run_xdp rx_ring.xdp_bpf_prog xdp, .xdp_convert_buff_to_frame xdp,
         .trace_xdp_exception rx_ring.netdev rx_ring.xdp_bpf_prog XDP_TX,
         .ena_increase_stat .xdp_aborted 1] := by
  have ht : (ena_xdp_execute k rx_ring xdp).trace =
      [.bpf_prog_run_xdp rx_ring.xdp_bpf_prog xdp, .xdp_convert_buff_to_frame xdp,
       .trace_xdp_exception rx_ring.netdev rx_ring.xdp_bpf_prog XDP_TX,
       .ena_increase_stat .xdp_aborted 1] := by
    unfold ena_xdp_execute
    simp only [hv, switch_tx_no_frame k rx_ring xdp _ hc]
    rfl
  rw [ht, execute_stats, execute_ret, incremented_iff, unchanged_iff, hv,
    switch_tx_no_frame k rx_ring xdp _ hc]
  exact ⟨rfl, rfl, by simp, rfl, rfl, rfl⟩

/-- C10, at a concrete call: verdict `XDP_TX` on `ring0` with a failed
conversion returns `ENA_XDP_DROP`, takes `xdp_aborted` from 1 to 2 and leaves
`xdp_tx` at 4, without lock or submission. -/
theorem ena_xdp_execute_tx_conversion_failure_witness :
    (ena_xdp_execute (fixed_outcomes XDP_TX 0 0 0) ring0 77).ret = ENA_XDP_DROP ∧
      (ena_xdp_execute (fixed_outcomes XDP_TX 0 0 0) ring0 77).rx_ring.rx_stats.xdp_aborted = 2 ∧
      (ena_xdp_execute (fixed_outcomes XDP_TX 0 0 0) ring0 77).rx_ring.rx_stats.xdp_tx = 4 ∧
      acquires_lock (ena_xdp_execute (fixed_outcomes XDP_TX 0 0 0) ring0 77).trace = false ∧
      submits_frame (ena_xdp_execute (fixed_outcomes XDP_TX 0 0 0) ring0 77).trace = false :=
  have h := ena_xdp_execute_tx_conversion_failure (fixed_outcomes XDP_TX 0 0 0) ring0 77 rfl rfl
  ⟨h.1, h.2.1, h.2.2.1, h.2.2.2.1, h.2.2.2.2.1⟩

/-- C11: when the verdict is `XDP_TX` and frame conversion succeeds,
`ena_xdp_execute` submits that frame to `rx_ring->xdp_ring` exactly once,
releases it with `xdp_return_frame` exactly once if the submission returned
non-zero and not at all otherwise, and in both cases raises `xdp_tx` by 1 and
returns `ENA_XDP_TX`. -/
theorem ena_xdp_execute_tx_submission (k : Collaborators) (rx_ring : ena_ring) (xdp : Nat)
    (hv : k.bpf_prog_run_xdp rx_ring.xdp_bpf_prog xdp = XDP_TX)
    (hc : k.xdp_convert_buff_to_frame xdp ≠ 0) :
    submissions (ena_xdp_execute k rx_ring xdp).trace =
        [(rx_ring.xdp_ring, rx_ring.adapter, k.xdp_convert_buff_to_frame xdp)] ∧
      released_frames (ena_xdp_execute k rx_ring xdp).trace =
        (if k.ena_xdp_xmit_frame rx_ring.xdp_ring rx_ring.adapter
            (k.xdp_convert_buff_to_frame xdp) ≠ 0
         then [k.xdp_convert_buff_to_frame xdp] else []) ∧
      incremented .xdp_tx rx_ring.rx_stats
        (ena_xdp_execute k rx_ring xdp).rx_ring.rx_stats ∧
      (ena_xdp_execute k rx_ring xdp).ret = ENA_XDP_TX := by
  rw [execute_trace, execute_stats, execute_ret, incremented_iff, hv,
    switch_tx_frame k rx_ring xdp _ hc]
  by_cases hx : k.ena_xdp_xmit_frame rx_ring.xdp_ring rx_ring.adapter
      (k.xdp_convert_buff_to_frame xdp) = 0 <;>
    simp [submissions, released_frames, hx]

/-- C11, at concrete calls on `ring0`: frame 9 is submitted once to ring
`0x2000`; when the submission returns `-1` the frame is released once, when
it returns 0 it is not; `xdp_tx` goes from 4 to 5 and the result is
`ENA_XDP_TX` both times. -/
theorem ena_xdp_execute_tx_submission_witness :
    (submissions (ena_xdp_execute (fixed_outcomes XDP_TX 9 (-1) 0) ring0 77).trace =
        [(8192, 16384, 9)] ∧
      released_frames (ena_xdp_execute (fixed_outcomes XDP_TX 9 (-1) 0) ring0 77).trace = [9] ∧
      (ena_xdp_execute (fixed_outcomes XDP_TX 9 (-1) 0) ring0 77).rx_ring.rx_stats.xdp_tx = 5 ∧
      (ena_xdp_execute (fixed_outcomes XDP_TX 9 (-1) 0) ring0 77).ret = ENA_XDP_TX) ∧
    (submissions (ena_xdp_execute (fixed_outcomes XDP_TX 9 0 0) ring0 77).trace =
        [(8192, 16384, 9)] ∧
      released_frames (ena_xdp_execute (fixed_outcomes XDP_TX 9 0 0) ring0 77).trace = [] ∧
      (ena_xdp_execute (fixed_outcomes XDP_TX 9 0 0) ring0 77).rx_ring.rx_stats.xdp_tx = 5 ∧
      (ena_xdp_execute (fixed_outcomes XDP_TX 9 0 0) ring0 77).ret = ENA_XDP_TX) :=
  ⟨ena_xdp_execute_tx_submission (fixed_outcomes XDP_TX 9 (-1) 0) ring0 77 rfl (by decide),
   ena_xdp_execute_tx_submission (fixed_outcomes XDP_TX 9 0 0) ring0 77 rfl (by decide)⟩

/-- C12: when the verdict is `XDP_REDIRECT`, `ena_xdp_execute` calls
`xdp_do_redirect` exactly once, with the packet buffer and the program that
was run; if the call returns 0 the result is `ENA_XDP_REDIRECT` and
`xdp_redirect` goes up by 1; otherwise the result is `ENA_XDP_DROP`,
`xdp_aborted` goes up by 1 and `xdp_redirect` stays as it was. -/
theorem ena_xdp_execute_redirect (k : Collaborators) (rx_ring : ena_ring) (xdp : Nat)
    (hv : k.bpf_prog_run_xdp rx_ring.xdp_bpf_prog xdp = XDP_REDIRECT) :
    (ena_xdp_execute k rx_ring xdp).trace.head? =
        some (.bpf_prog_run_xdp rx_ring.xdp_bpf_prog xdp) ∧
      redirections (ena_xdp_execute k rx_ring xdp).trace =
        [(rx_ring.netdev, xdp, rx_ring.xdp_bpf_prog)] ∧
      (k.xdp_do_redirect rx_ring.netdev xdp rx_ring.xdp_bpf_prog = 0 →
        incremented .xdp_redirect rx_ring.rx_stats
            (ena_xdp_execute k rx_ring xdp).rx_ring.rx_stats ∧
          (ena_xdp_execute k rx_ring xdp).ret = ENA_XDP_REDIRECT) ∧
      (k.xdp_do_redirect rx_ring.netdev xdp rx_ring.xdp_bpf_prog ≠ 0 →
        incremented .xdp_aborted rx_ring.rx_stats
            (ena_xdp_execute k rx_ring xdp).rx_ring.rx_stats ∧
          unchanged .xdp_redirect rx_ring.rx_stats
            (ena_xdp_execute k rx_ring xdp).rx_ring.rx_stats ∧
          (ena_xdp_execute k rx_ring xdp).ret = ENA_XDP_DROP) := by
  rw [execute_trace, execute_stats, execute_ret, incremented_iff, incremented_iff,
    unchanged_iff, hv]
  by_cases hr : k.xdp_do_redirect rx_ring.netdev xdp rx_ring.xdp_bpf_prog = 0
  · rw [switch_redirect_ok k rx_ring xdp _ hr]
    simp [redirections, hr]
  · rw [switch_redirect_fail k rx_ring xdp _ hr]
    simp [redirections, hr]

/-- C12, at concrete calls on `ring0`: a redirect that returns 0 gives
`ENA_XDP_REDIRECT` and raises `xdp_redirect`; one that returns `-1` gives
`ENA_XDP_DROP`, raises `xdp_aborted` and leaves `xdp_redirect` alone; both
call `xdp_do_redirect` once with buffer 77 and program `0x1000`. -/
theorem ena_xdp_execute_redirect_witness :
    (redirections (ena_xdp_execute (fixed_outcomes XDP_REDIRECT 0 0 0) ring0 77).trace =
        [(12288, 77, 4096)] ∧
      incremented .xdp_redirect ring0.rx_stats
        (ena_xdp_execute (fixed_outcomes XDP_REDIRECT 0 0 0) ring0 77).rx_ring.rx_stats ∧
      (ena_xdp_execute (fixed_outcomes XDP_REDIRECT 0 0 0) ring0 77).ret = ENA_XDP_REDIRECT) ∧
    (redirections (ena_xdp_execute (fixed_outcomes XDP_REDIRECT 0 0 (-1)) ring0 77).trace =
        [(12288, 77, 4096)] ∧
      incremented .xdp_aborted ring0.rx_stats
        (ena_xdp_execute (fixed_outcomes XDP_REDIRECT 0 0 (-1)) ring0 77).rx_ring.rx_stats ∧
      unchanged .xdp_redirect ring0.rx_stats
        (ena_xdp_execute (fixed_outcomes XDP_REDIRECT 0 0 (-1)) ring0 77).rx_ring.rx_stats ∧
      (ena_xdp_execute (fixed_outcomes XDP_REDIRECT 0 0 (-1)) ring0 77).ret = ENA_XDP_DROP) :=
  ⟨⟨(ena_xdp_execute_redirect (fixed_outcomes XDP_REDIRECT 0 0 0) ring0 77 rfl).2.1,
    (ena_xdp_execute_redirect (fixed_outcomes XDP_REDIRECT 0 0 0) ring0 77 rfl).2.2.1 rfl⟩,
   ⟨(ena_xdp_execute_redirect (fixed_outcomes XDP_REDIRECT 0 0 (-1)) ring0 77 rfl).2.1,
    (ena_xdp_execute_redirect (fixed_outcomes XDP_REDIRECT 0 0 (-1)) ring0 77 rfl).2.2.2
      (by decide)⟩⟩

/-- C13: verdict `XDP_DROP` makes `ena_xdp_execute` raise `xdp_drop` by 1 and
return `ENA_XDP_DROP`; verdict `XDP_PASS` makes it raise `xdp_pass` by 1 and
return `ENA_XDP_PASS`; in both cases the only calls are the program run and
the counter update, so there is no frame conversion, no submission and no
redirection. -/
theorem ena_xdp_execute_drop_pass (k : Collaborators) (rx_ring : ena_ring) (xdp : Nat) :
    (k.bpf_prog_run_xdp rx_ring.xdp_bpf_prog xdp = XDP_DROP →
        incremented .xdp_drop rx_ring.rx_stats
            (ena_xdp_execute k rx_ring xdp).rx_ring.rx_stats ∧
          (ena_xdp_execute k rx_ring xdp).ret = ENA_XDP_DROP ∧
          (ena_xdp_execute k rx_ring xdp).trace =
            [.bpf_prog_run_xdp rx_ring.xdp_bpf_prog xdp, .ena_increase_stat .xdp_drop 1] ∧
          conversions (ena_xdp_execute k rx_ring xdp).trace = [] ∧
          submissions (ena_xdp_execute k rx_ring xdp).trace = [] ∧
          redirections (ena_xdp_execute k rx_ring xdp).trace = []) ∧
      (k.bpf_prog_run_xdp rx_ring.xdp_bpf_prog xdp = XDP_PASS →
        incremented .xdp_pass rx_ring.rx_stats
            (ena_xdp_execute k rx_ring xdp).rx_ring.rx_stats ∧
          (ena_xdp_execute k rx_ring xdp).ret = ENA_XDP_PASS ∧
          (ena_xdp_execute k rx_ring xdp).trace =
            [.bpf_prog_run_xdp rx_ring.xdp_bpf_prog xdp, .ena_increase_stat .xdp_pass 1] ∧
          conversions (ena_xdp_execute k rx_ring xdp).trace = [] ∧
          submissions (ena_xdp_execute k rx_ring xdp).trace = [] ∧
          redirections (ena_xdp_execute k rx_ring xdp).trace = []) := by
  constructor
  · intro hv
    rw [execute_trace, execute_stats, execute_ret, incremented_iff, hv, switch_drop]
    simp [conversions, submissions, redirections]
  · intro hv
    rw [execute_trace, execute_stats, execute_ret, incremented_iff, hv, switch_pass]
    simp [conversions, submissions, redirections]

/-- C13, at concrete calls on `ring0`: verdict `XDP_DROP` takes `xdp_drop` from
2 to 3 and returns `ENA_XDP_DROP`; verdict `XDP_PASS` takes `xdp_pass` from 3
to 4 and returns `ENA_XDP_PASS`. -/
theorem ena_xdp_execute_drop_pass_witness :
    ((ena_xdp_execute (fixed_outcomes XDP_DROP 9 0 0) ring0 77).rx_ring.rx_stats.xdp_drop = 3 ∧
      (ena_xdp_execute (fixed_outcomes XDP_DROP 9 0 0) ring0 77).ret = ENA_XDP_DROP) ∧
    ((ena_xdp_execute (fixed_outcomes XDP_PASS 9 0 0) ring0 77).rx_ring.rx_stats.xdp_pass = 4 ∧
      (ena_xdp_execute (fixed_outcomes XDP_PASS 9 0 0) ring0 77).ret = ENA_XDP_PASS) :=
  ⟨⟨((ena_xdp_execute_drop_pass (fixed_outcomes XDP_DROP 9 0 0) ring0 77).1 rfl).1,
    ((ena_xdp_execute_drop_pass (fixed_outcomes XDP_DROP 9 0 0) ring0 77).1 rfl).2.1⟩,
   ⟨((ena_xdp_execute_drop_pass (fixed_outcomes XDP_PASS 9 0 0) ring0 77).2 rfl).1,
    ((ena_xdp_execute_drop_pass (fixed_outcomes XDP_PASS 9 0 0) ring0 77).2 rfl).2.1⟩⟩

/-- C14: one call of `ena_xdp_execute` submits at most one frame; it submits a
frame only for verdict `XDP_TX`, calls `xdp_do_redirect` only for verdict
`XDP_REDIRECT`, returns `ENA_XDP_TX` only for verdict `XDP_TX` and returns
`ENA_XDP_REDIRECT` only for verdict `XDP_REDIRECT`. -/
theorem ena_xdp_execute_fail_safe (k : Collaborators) (rx_ring : ena_ring) (xdp : Nat) :
    (submissions (ena_xdp_execute k rx_ring xdp).trace).length ≤ 1 ∧
      (submissions (ena_xdp_execute k rx_ring xdp).trace ≠ [] →
        k.bpf_prog_run_xdp rx_ring.xdp_bpf_prog xdp = XDP_TX) ∧
      (redirections (ena_xdp_execute k rx_ring xdp).trace ≠ [] →
        k.bpf_prog_run_xdp rx_ring.xdp_bpf_prog xdp = XDP_REDIRECT) ∧
      ((ena_xdp_execute k rx_ring xdp).ret = ENA_XDP_TX →
        k.bpf_prog_run_xdp rx_ring.xdp_bpf_prog xdp = XDP_TX) ∧
      ((ena_xdp_execute k rx_ring xdp).ret = ENA_XDP_REDIRECT →
        k.bpf_prog_run_xdp rx_ring.xdp_bpf_prog xdp = XDP_REDIRECT) := by
  have hobs := switch_observations k rx_ring xdp rx_ring.xdp_bpf_prog
    (k.bpf_prog_run_xdp rx_ring.xdp_bpf_prog xdp)
  have hfw := switch_verdict_forwarded k rx_ring xdp rx_ring.xdp_bpf_prog
    (k.bpf_prog_run_xdp rx_ring.xdp_bpf_prog xdp)
  have hs : submissions (ena_xdp_execute k rx_ring xdp).trace =
      submissions (ena_xdp_execute_switch k rx_ring xdp rx_ring.xdp_bpf_prog
        (k.bpf_prog_run_xdp rx_ring.xdp_bpf_prog xdp)).trace := by
    rw [execute_trace]
    simp [submissions]
  have hr : redirections (ena_xdp_execute k rx_ring xdp).trace =
      redirections (ena_xdp_execute_switch k rx_ring xdp rx_ring.xdp_bpf_prog
        (k.bpf_prog_run_xdp rx_ring.xdp_bpf_prog xdp)).trace := by
    rw [execute_trace]
    simp [redirections]
  rw [hs, hr, hobs.1, hobs.2.1, execute_ret]
  refine ⟨?_, ?_, ?_, hfw.1, hfw.2⟩
  · split <;> simp
  · intro h
    by_cases hv : k.bpf_prog_run_xdp rx_ring.xdp_bpf_prog xdp = XDP_TX
    · exact hv
    · simp [hv] at h
  · intro h
    by_cases hv : k.bpf_prog_run_xdp rx_ring.xdp_bpf_prog xdp = XDP_REDIRECT
    · exact hv
    · simp [hv] at h

/-- C14, at a concrete call on `ring0`: the unknown verdict 7 submits nothing,
redirects nothing and returns `ENA_XDP_DROP`, while verdict `XDP_TX` submits
one frame. -/
theorem ena_xdp_execute_fail_safe_witness :
    submissions (ena_xdp_execute (fixed_outcomes 7 9 0 0) ring0 77).trace = [] ∧
      redirections (ena_xdp_execute (fixed_outcomes 7 9 0 0) ring0 77).trace = [] ∧
      (ena_xdp_execute (fixed_outcomes 7 9 0 0) ring0 77).ret = ENA_XDP_DROP ∧
      (fixed_outcomes XDP_TX 9 0 0).bpf_prog_run_xdp ring0.xdp_bpf_prog 77 = XDP_TX :=
  ⟨by decide, by decide, by decide,
   (ena_xdp_execute_fail_safe (fixed_outcomes XDP_TX 9 0 0) ring0 77).2.1 (by decide)⟩

/-! ## Zero-copy pool presence: results -/

/-- C15: on an adapter whose ring array covers its `num_io_queues` configured
queues, `ena_is_zc_q_exist` returns true exactly when some ring with index
below `num_io_queues` has a zero-copy pool, and false otherwise; with zero
queues it returns false; and the rings from index `num_io_queues` on do not
affect the result. -/
theorem ena_is_zc_q_exist_characterised (a : ena_adapter)
    (hb : a.num_io_queues ≤ a.rx_ring.length) (hi : a.num_io_queues ≤ INT_MAX) :
    (ena_is_zc_q_exist a = some true ↔ ∃ i, i < a.num_io_queues ∧ has_xsk_pool a i) ∧
      (ena_is_zc_q_exist a = some false ↔ ¬ ∃ i, i < a.num_io_queues ∧ has_xsk_pool a i) ∧
      (a.num_io_queues = 0 → ena_is_zc_q_exist a = some false) ∧
      (∀ a2 : ena_adapter, a2.num_io_queues = a.num_io_queues →
        a2.rx_ring.take a.num_io_queues = a.rx_ring.take a.num_io_queues →
        ena_is_zc_q_exist a2 = ena_is_zc_q_exist a) := by
  obtain ⟨b, h1, h2⟩ := zc_exist_spec a hb hi
  have htrue : ena_is_zc_q_exist a = some true ↔
      ∃ i, i < a.num_io_queues ∧ has_xsk_pool a i := by
    rw [h1, ← h2]
    simp
  have hfalse : ena_is_zc_q_exist a = some false ↔
      ¬ ∃ i, i < a.num_io_queues ∧ has_xsk_pool a i := by
    rw [h1, ← h2]
    simp
  refine ⟨htrue, hfalse, ?_, ?_⟩
  · intro h0
    rw [hfalse]
    rintro ⟨i, hi1, _⟩
    omega
  · intro a2 hn ht
    have hlen : (a2.rx_ring.take a.num_io_queues).length = a.num_io_queues := by
      rw [ht]
      exact List.length_take_of_le hb
    have hb2 : a2.num_io_queues ≤ a2.rx_ring.length := by
      rw [hn, ← hlen]
      exact List.length_take_le' _ _
    obtain ⟨b2, h3, h4⟩ := zc_exist_spec a2 hb2 (by rw [hn]; exact hi)
    have hsame : (∃ i, i < a2.num_io_queues ∧ has_xsk_pool a2 i) ↔
        ∃ i, i < a.num_io_queues ∧ has_xsk_pool a i := by
      rw [hn]
      constructor
      · rintro ⟨i, hi1, hi2⟩
        exact ⟨i, hi1, (has_xsk_pool_congr a a2 _ i hi1 ht).mp hi2⟩
      · rintro ⟨i, hi1, hi2⟩
        exact ⟨i, hi1, (has_xsk_pool_congr a a2 _ i hi1 ht).mpr hi2⟩
    have hbb : b2 = b := by
      have : b2 = true ↔ b = true := by rw [h4, h2, hsame]
      cases b <;> cases b2 <;> simp at this ⊢
    rw [h1, h3, hbb]

/-- C15, at concrete adapters: of the rings without pool, with pool `7`,
without pool, the first two configured give true, by ring 1; the first one
configured alone gives the same result as on an adapter with that one ring. -/
theorem ena_is_zc_q_exist_characterised_witness :
    ena_is_zc_q_exist (mk_zc_adapter [xsk_ring 0, xsk_ring 7, xsk_ring 0] 2) = some true ∧
      ena_is_zc_q_exist (mk_zc_adapter [xsk_ring 0, xsk_ring 7, xsk_ring 0] 1) =
        ena_is_zc_q_exist (mk_zc_adapter [xsk_ring 0] 1) :=
  ⟨(ena_is_zc_q_exist_characterised (mk_zc_adapter [xsk_ring 0, xsk_ring 7, xsk_ring 0] 2)
      (by decide) (by decide)).1.mpr ⟨1, by decide, xsk_ring 7, rfl, by decide⟩,
   (ena_is_zc_q_exist_characterised (mk_zc_adapter [xsk_ring 0] 1)
      (by decide) (by decide)).2.2.2
        (mk_zc_adapter [xsk_ring 0, xsk_ring 7, xsk_ring 0] 1) rfl rfl⟩

/-! ## Lock discipline, drop count, result values, monotonicity -/

/-- C16: in the sequence of calls of one `ena_xdp_execute` the transmit lock
is taken at most once, each `spin_lock` is followed by one `spin_unlock` of
the same lock before the end, a submission and the release of a rejected
frame happen only while the lock is held, and the program run, the frame
conversion, the redirection and the counter update happen only while it is
free. -/
theorem ena_xdp_execute_lock_discipline (k : Collaborators) (rx_ring : ena_ring) (xdp : Nat) :
    lock_discipline (ena_xdp_execute k rx_ring xdp).trace = true ∧
      (lock_acquisitions (ena_xdp_execute k rx_ring xdp).trace).length ≤ 1 := by
  have hobs := switch_observations k rx_ring xdp rx_ring.xdp_bpf_prog
    (k.bpf_prog_run_xdp rx_ring.xdp_bpf_prog xdp)
  have hl : lock_acquisitions (ena_xdp_execute k rx_ring xdp).trace =
      lock_acquisitions (ena_xdp_execute_switch k rx_ring xdp rx_ring.xdp_bpf_prog
        (k.bpf_prog_run_xdp rx_ring.xdp_bpf_prog xdp)).trace := by
    rw [execute_trace]
    simp [lock_acquisitions]
  constructor
  · rw [execute_trace]
    unfold lock_discipline
    rw [lock_discipline_from, hobs.2.2.2.2]
    rfl
  · rw [hl, hobs.2.2.2.1]
    split <;> simp

/-- C17: `ena_ring_xdp_drops_cnt` returns the ring's `xdp_drop` counter; across
one call of `ena_xdp_execute` it goes up by exactly 1 when the verdict is
`XDP_DROP` and is unchanged for every other verdict, in particular when the
call returns `ENA_XDP_DROP` because of a failed conversion, a failed redirect,
`XDP_ABORTED` or an unknown verdict. -/
theorem ena_ring_xdp_drops_cnt_genuine_drops (k : Collaborators) (rx_ring : ena_ring)
    (xdp : Nat) :
    ena_ring_xdp_drops_cnt rx_ring = rx_ring.rx_stats.xdp_drop ∧
      (ena_ring_xdp_drops_cnt (ena_xdp_execute k rx_ring xdp).rx_ring =
          ena_ring_xdp_drops_cnt rx_ring + 1 ↔
        k.bpf_prog_run_xdp rx_ring.xdp_bpf_prog xdp = XDP_DROP) ∧
      (k.bpf_prog_run_xdp rx_ring.xdp_bpf_prog xdp ≠ XDP_DROP →
        ena_ring_xdp_drops_cnt (ena_xdp_execute k rx_ring xdp).rx_ring =
          ena_ring_xdp_drops_cnt rx_ring) ∧
      (k.bpf_prog_run_xdp rx_ring.xdp_bpf_prog xdp ≠ XDP_DROP →
        k.bpf_prog_run_xdp rx_ring.xdp_bpf_prog xdp ≠ XDP_PASS →
        ¬ (k.bpf_prog_run_xdp rx_ring.xdp_bpf_prog xdp = XDP_TX ∧
            k.xdp_convert_buff_to_frame xdp ≠ 0) →
        ¬ (k.bpf_prog_run_xdp rx_ring.xdp_bpf_prog xdp = XDP_REDIRECT ∧
            k.xdp_do_redirect rx_ring.netdev xdp rx_ring.xdp_bpf_prog = 0) →
        (ena_xdp_execute k rx_ring xdp).ret = ENA_XDP_DROP ∧
          ena_ring_xdp_drops_cnt (ena_xdp_execute k rx_ring xdp).rx_ring =
            ena_ring_xdp_drops_cnt rx_ring) := by
  have hinc : (ena_ring_xdp_drops_cnt (ena_xdp_execute k rx_ring xdp).rx_ring =
      ena_ring_xdp_drops_cnt rx_ring + 1) ↔
      k.bpf_prog_run_xdp rx_ring.xdp_bpf_prog xdp = XDP_DROP := by
    have h := incremented_iff rx_ring.rx_stats
      (ena_xdp_execute_switch k rx_ring xdp rx_ring.xdp_bpf_prog
        (k.bpf_prog_run_xdp rx_ring.xdp_bpf_prog xdp)).xdp_stat .xdp_drop
    rw [← execute_stats] at h
    have h2 := switch_stat_drop_iff k rx_ring xdp rx_ring.xdp_bpf_prog
      (k.bpf_prog_run_xdp rx_ring.xdp_bpf_prog xdp)
    constructor
    · intro h3
      exact h2.mp (h.mp h3).symm
    · intro h3
      exact h.mpr (h2.mpr h3).symm
  have hsame : k.bpf_prog_run_xdp rx_ring.xdp_bpf_prog xdp ≠ XDP_DROP →
      ena_ring_xdp_drops_cnt (ena_xdp_execute k rx_ring xdp).rx_ring =
        ena_ring_xdp_drops_cnt rx_ring := by
    intro hne
    have h := unchanged_iff rx_ring.rx_stats
      (ena_xdp_execute_switch k rx_ring xdp rx_ring.xdp_bpf_prog
        (k.bpf_prog_run_xdp rx_ring.xdp_bpf_prog xdp)).xdp_stat .xdp_drop
    rw [← execute_stats] at h
    have h2 := switch_stat_drop_iff k rx_ring xdp rx_ring.xdp_bpf_prog
      (k.bpf_prog_run_xdp rx_ring.xdp_bpf_prog xdp)
    exact h.mpr (fun h3 => hne (h2.mp h3.symm))
  refine ⟨rfl, hinc, hsame, ?_⟩
  intro hd hp htx hrd
  refine ⟨?_, hsame hd⟩
  rw [execute_ret]
  rcases switch_pairs k rx_ring xdp rx_ring.xdp_bpf_prog
      (k.bpf_prog_run_xdp rx_ring.xdp_bpf_prog xdp) with
    h | h | h | h | h | h
  · exact h.2
  · exfalso
    have hv := (switch_verdict_forwarded k rx_ring xdp rx_ring.xdp_bpf_prog
      (k.bpf_prog_run_xdp rx_ring.xdp_bpf_prog xdp)).1 h.2
    apply htx
    refine ⟨hv, fun hc => ?_⟩
    have h5 := h.1
    rw [hv, switch_tx_no_frame k rx_ring xdp _ hc] at h5
    cases h5
  · exfalso
    have hv := (switch_verdict_forwarded k rx_ring xdp rx_ring.xdp_bpf_prog
      (k.bpf_prog_run_xdp rx_ring.xdp_bpf_prog xdp)).2 h.2
    apply hrd
    refine ⟨hv, ?_⟩
    by_contra hr
    have h5 := h.1
    rw [hv, switch_redirect_fail k rx_ring xdp _ hr] at h5
    cases h5
  · exact h.2
  · exfalso
    by_cases h3 : k.bpf_prog_run_xdp rx_ring.xdp_bpf_prog xdp = XDP_TX
    · have h5 := h.1
      rw [h3] at h5
      by_cases hc : k.xdp_convert_buff_to_frame xdp = 0
      · rw [switch_tx_no_frame k rx_ring xdp _ hc] at h5
        cases h5
      · rw [switch_tx_frame k rx_ring xdp _ hc] at h5
        cases h5
    · by_cases h4 : k.bpf_prog_run_xdp rx_ring.xdp_bpf_prog xdp = XDP_REDIRECT
      · have h5 := h.1
        rw [h4] at h5
        by_cases hr : k.xdp_do_redirect rx_ring.netdev xdp rx_ring.xdp_bpf_prog = 0
        · rw [switch_redirect_ok k rx_ring xdp _ hr] at h5
          cases h5
        · rw [switch_redirect_fail k rx_ring xdp _ hr] at h5
          cases h5
      · by_cases h0 : k.bpf_prog_run_xdp rx_ring.xdp_bpf_prog xdp = XDP_ABORTED
        · have h5 := h.1
          rw [h0, switch_aborted] at h5
          cases h5
        · have h5 := h.1
          rw [switch_default k rx_ring xdp _ _ h0 hd hp h3 h4] at h5
          cases h5
  · exact h.2

/-- C17, at concrete calls on `ring0`: verdict `XDP_DROP` takes the drop count
from 2 to 3; verdict `XDP_ABORTED` returns `ENA_XDP_DROP` and leaves it at
2. -/
theorem ena_ring_xdp_drops_cnt_genuine_drops_witness :
    ena_ring_xdp_drops_cnt (ena_xdp_execute (fixed_outcomes XDP_DROP 9 0 0) ring0 77).rx_ring =
        ena_ring_xdp_drops_cnt ring0 + 1 ∧
      ((ena_xdp_execute (fixed_outcomes XDP_ABORTED 9 0 0) ring0 77).ret = ENA_XDP_DROP ∧
        ena_ring_xdp_drops_cnt
            (ena_xdp_execute (fixed_outcomes XDP_ABORTED 9 0 0) ring0 77).rx_ring =
          ena_ring_xdp_drops_cnt ring0) :=
  ⟨(ena_ring_xdp_drops_cnt_genuine_drops (fixed_outcomes XDP_DROP 9 0 0) ring0 77).2.1.mpr rfl,
   (ena_ring_xdp_drops_cnt_genuine_drops (fixed_outcomes XDP_ABORTED 9 0 0) ring0 77).2.2.2
      (by decide) (by decide) (by decide) (by decide)⟩

/-- C18 (as stated, refuted): on `ring0` with verdict `XDP_REDIRECT` and a
redirection that fails with `-1`, `ena_xdp_execute` returns 4, which is the raw
verdict code of the program: `ENA_XDP_DROP` and `XDP_REDIRECT` are the same
number. -/
theorem ena_xdp_execute_returns_raw_code_on_failed_redirect :
    (fixed_outcomes XDP_REDIRECT 0 0 (-1)).bpf_prog_run_xdp ring0.xdp_bpf_prog 77 = 4 ∧
      (ena_xdp_execute (fixed_outcomes XDP_REDIRECT 0 0 (-1)) ring0 77).ret = 4 ∧
      (ena_xdp_execute (fixed_outcomes XDP_REDIRECT 0 0 (-1)) ring0 77).ret =
        (fixed_outcomes XDP_REDIRECT 0 0 (-1)).bpf_prog_run_xdp ring0.xdp_bpf_prog 77 := by
  decide

/-- C18 (amended): the value returned by `ena_xdp_execute` is always one of
`ENA_XDP_PASS = 0`, `ENA_XDP_TX = 1`, `ENA_XDP_REDIRECT = 2`, `ENA_XDP_DROP = 4`,
whatever code the program returned; it differs from the raw verdict code of
the program except for verdict `XDP_REDIRECT` with a failed redirection, where
both are 4; the four values are pairwise distinct; and the result has a bit in
common with `ENA_XDP_FORWARDED` exactly when it is `ENA_XDP_TX` or
`ENA_XDP_REDIRECT`. -/
theorem ena_xdp_execute_result_values (k : Collaborators) (rx_ring : ena_ring) (xdp : Nat) :
    ((ena_xdp_execute k rx_ring xdp).ret = ENA_XDP_PASS ∨
        (ena_xdp_execute k rx_ring xdp).ret = ENA_XDP_TX ∨
        (ena_xdp_execute k rx_ring xdp).ret = ENA_XDP_REDIRECT ∨
        (ena_xdp_execute k rx_ring xdp).ret = ENA_XDP_DROP) ∧
      ((ena_xdp_execute k rx_ring xdp).ret = k.bpf_prog_run_xdp rx_ring.xdp_bpf_prog xdp ↔
        k.bpf_prog_run_xdp rx_ring.xdp_bpf_prog xdp = XDP_REDIRECT ∧
          k.xdp_do_redirect rx_ring.netdev xdp rx_ring.xdp_bpf_prog ≠ 0) ∧
      (ENA_XDP_PASS = 0 ∧ ENA_XDP_TX = 1 ∧ ENA_XDP_REDIRECT = 2 ∧ ENA_XDP_DROP = 4) ∧
      (ENA_XDP_PASS ≠ ENA_XDP_TX ∧ ENA_XDP_PASS ≠ ENA_XDP_REDIRECT ∧
        ENA_XDP_PASS ≠ ENA_XDP_DROP ∧ ENA_XDP_TX ≠ ENA_XDP_REDIRECT ∧
        ENA_XDP_TX ≠ ENA_XDP_DROP ∧ ENA_XDP_REDIRECT ≠ ENA_XDP_DROP) ∧
      ((ena_xdp_execute k rx_ring xdp).ret &&& ENA_XDP_FORWARDED ≠ 0 ↔
        (ena_xdp_execute k rx_ring xdp).ret = ENA_XDP_TX ∨
          (ena_xdp_execute k rx_ring xdp).ret = ENA_XDP_REDIRECT) := by
  rw [execute_ret]
  refine ⟨?_, switch_verdict_eq_raw_iff k rx_ring xdp _ _, by decide, by decide, ?_⟩
  · rcases switch_pairs k rx_ring xdp rx_ring.xdp_bpf_prog
        (k.bpf_prog_run_xdp rx_ring.xdp_bpf_prog xdp) with
      h | h | h | h | h | h <;> simp [h.2]
  · rcases switch_pairs k rx_ring xdp rx_ring.xdp_bpf_prog
        (k.bpf_prog_run_xdp rx_ring.xdp_bpf_prog xdp) with
      h | h | h | h | h | h <;>
    · rw [h.2]
      decide

/-- C18 (amended), at concrete calls on `ring0`: verdict `XDP_DROP` (1) returns a
value other than 1, and a redirect that succeeds returns a value other than
4. -/
theorem ena_xdp_execute_result_values_witness :
    (ena_xdp_execute (fixed_outcomes XDP_DROP 9 0 0) ring0 77).ret ≠ 1 ∧
      (ena_xdp_execute (fixed_outcomes XDP_REDIRECT 9 0 0) ring0 77).ret ≠ 4 :=
  ⟨fun h => absurd
      ((ena_xdp_execute_result_values (fixed_outcomes XDP_DROP 9 0 0) ring0 77).2.1.mp h).1
      (by decide),
   fun h => absurd rfl
      ((ena_xdp_execute_result_values (fixed_outcomes XDP_REDIRECT 9 0 0) ring0 77).2.1.mp h).2⟩

/-- C19 (as stated, refuted): with 8 hardware queues and MTU 1500, the queue
count `2 ^ 31` is allowed, because its 32-bit double is 0, while the smaller
queue count 5 with the same MTU is refused with `ENA_XDP_NO_ENOUGH_QUEUES`;
likewise `ena_xdp_legal_queue_count` is true for `2 ^ 31` and false for 5. -/
theorem ena_xdp_allowed_not_monotone :
    (mk_adapter 1500 (2 ^ 31) 8).in_range ∧ (mk_adapter 1500 5 8).in_range ∧
      (5 ≤ 2 ^ 31 ∧ 1500 ≤ 1500) ∧
      ena_xdp_allowed linux64 (mk_adapter 1500 (2 ^ 31) 8) = ENA_XDP_ALLOWED ∧
      ena_xdp_allowed linux64 (mk_adapter 1500 5 8) = ENA_XDP_NO_ENOUGH_QUEUES ∧
      ena_xdp_legal_queue_count (mk_adapter 1500 0 8) (2 ^ 31) = true ∧
      ena_xdp_legal_queue_count (mk_adapter 1500 0 8) 5 = false := by
  decide

/-- C19 (amended): for a fixed hardware queue count, if `ena_xdp_allowed`
returns `ENA_XDP_ALLOWED` for MTU `m` and queue count `q`, it also does for
every MTU `m2 ≤ m` and every queue count `q2 ≤ q`, provided `q < 2 ^ 31` (the
doubling of `q` does not wrap) or `q2 = q`; and under the same proviso
`ena_xdp_legal_queue_count` true at `q` implies it true at `q2`. -/
theorem ena_xdp_allowed_monotone (p : Platform) (a a2 : ena_adapter)
    (ht : a2.max_num_io_queues = a.max_num_io_queues)
    (hm : a2.netdev.mtu ≤ a.netdev.mtu)
    (hq : a2.num_io_queues ≤ a.num_io_queues)
    (hw : a.num_io_queues < 2 ^ 31 ∨ a2.num_io_queues = a.num_io_queues) :
    (ena_xdp_allowed p a = ENA_XDP_ALLOWED → ena_xdp_allowed p a2 = ENA_XDP_ALLOWED) ∧
      (ena_xdp_legal_queue_count a a.num_io_queues = true →
        ena_xdp_legal_queue_count a a2.num_io_queues = true) := by
  have hlegal : ena_xdp_legal_queue_count a a.num_io_queues = true →
      ena_xdp_legal_queue_count a a2.num_io_queues = true := by
    rcases hw with hw | hw
    · rw [legal_queue_count_true_iff, legal_queue_count_true_iff]
      have e1 : (2 * a.num_io_queues) % 2 ^ 32 = 2 * a.num_io_queues :=
        Nat.mod_eq_of_lt (by omega)
      have e2 : (2 * a2.num_io_queues) % 2 ^ 32 = 2 * a2.num_io_queues :=
        Nat.mod_eq_of_lt (by omega)
      rw [e1, e2]
      intro h
      omega
    · rw [hw]
      exact id
  refine ⟨?_, hlegal⟩
  rw [ena_xdp_allowed_ok_iff, ena_xdp_allowed_ok_iff]
  rintro ⟨h1, h2⟩
  refine ⟨le_trans hm h1, ?_⟩
  have h3 := hlegal h2
  rw [legal_queue_count_true_iff] at h3 ⊢
  rw [ht]
  exact h3

/-- C19 (amended), at concrete adapters: 4 queues of 8 with MTU 3000 are
allowed, hence so are 3 queues of 8 with MTU 1500. -/
theorem ena_xdp_allowed_monotone_witness :
    ena_xdp_allowed linux64 (mk_adapter 1500 3 8) = ENA_XDP_ALLOWED ∧
      ena_xdp_legal_queue_count (mk_adapter 3000 4 8) 3 = true :=
  ⟨(ena_xdp_allowed_monotone linux64 (mk_adapter 3000 4 8) (mk_adapter 1500 3 8)
      rfl (by decide) (by decide) (Or.inl (by decide))).1 (by decide),
   (ena_xdp_allowed_monotone linux64 (mk_adapter 3000 4 8) (mk_adapter 1500 3 8)
      rfl (by decide) (by decide) (Or.inl (by decide))).2 (by decide)⟩

end EnaXdp
